import Mathlib

/-!
# Verification of the CloudFront Terraform provider resources

Shallow embedding of the resource lifecycle handlers and the expand/flatten
converters of the `cloudfront` package (cache policy, origin request policy,
response headers policy, monitoring subscription, public key, function),
together with theorems settling the specification claims.

Modelling conventions:

* Terraform's generic `interface{}` values are the inductive `TFValue`.
  Distinct Go dynamic types get distinct constructors, because Go type
  assertions (`x.(string)`, `x.(bool)`, `x.(*schema.Set)`, ...) discriminate
  on the exact dynamic type: a `CachePolicyCookieBehavior` (a named string
  type) is *not* a `string` to a type assertion, and a `*bool` produced by
  `aws.Bool` is not a `bool`.  `vNull` is the nil `interface{}` value.
* Go maps (`map[string]interface{}`) are `Option` of an association list with
  pairwise-distinct keys: `none` is a nil map, `some l` a non-nil map whose
  entries are listed in the (alphabetical) order the source inserts them;
  a lookup of a missing key yields the nil interface `vNull`, as in Go.
* Go slices are Lean lists; a nil slice and an empty slice are both `[]`
  (the source only distinguishes them via `len`, which agrees).
* Pointer-typed API struct fields (`*string`, `*bool`, `*int32`, `*int64`)
  are `Option`; `aws.String`/`aws.Bool`/... are `some`, `aws.ToString` is
  `Option.getD "" `.
* `int32(...)` casts wrap, modelled by `int32ofNat`.
* Remote SDK calls are not executed: each handler takes the results the AWS
  client would return as explicit arguments and produces a trace of events
  (remote calls made, `d.SetId` writes, `d.Set` state writes, diagnostics).
-/

namespace CloudFront

/-- A Go `float64` value, by identity: this package never computes with the
`sampling_rate` float — it only passes it between the API object and the
Terraform state — so only which value it is matters, not float arithmetic. -/
structure GoFloat64 where
  bits : Nat
deriving DecidableEq, Repr

/-- A Terraform-side dynamic (`interface{}`) value.  Constructors mirror the
Go dynamic types that actually flow through this package. -/
inductive TFValue where
  /-- a Go `bool` -/
  | vBool (b : Bool)
  /-- a Go `int` -/
  | vInt (n : Int)
  /-- a Go `string` -/
  | vStr (s : String)
  /-- a value of a named string type (an AWS enum such as
  `awstypes.CachePolicyCookieBehavior`); `ty` names the Go type.  A
  `.(string)` type assertion on such a value fails. -/
  | vEnum (ty : String) (s : String)
  /-- a non-nil `*bool` (as produced by `aws.Bool`) and the pointee -/
  | vPtrBool (b : Bool)
  /-- a non-nil `*int32` (as produced by `aws.Int32`) and the pointee -/
  | vPtrInt (n : Int)
  /-- a Go `float64` -/
  | vFloat (f : GoFloat64)
  /-- a non-nil `*float64` (as produced by `aws.Float64`) and the pointee -/
  | vPtrFloat (f : GoFloat64)
  /-- a Go `[]string` -/
  | vStrSlice (l : List String)
  /-- a Go `[]*string` (as produced by `aws.StringSlice`), all pointers
  non-nil, as the pointees -/
  | vPtrStrSlice (l : List String)
  /-- a slice of a named string type (an AWS enum slice such as
  `[]awstypes.ResponseHeadersPolicyAccessControlAllowMethodsValues`);
  `ty` names the Go element type -/
  | vEnumSlice (ty : String) (l : List String)
  /-- a non-nil `*schema.Set`, as the list of its elements in the set's
  iteration order (`schema.Set.List()`) -/
  | vSet (l : List TFValue)
  /-- a Go `[]interface{}` -/
  | vList (l : List TFValue)
  /-- a `map[string]interface{}`: `none` is a nil map -/
  | vMap (m : Option (List (String × TFValue)))
  /-- the nil `interface{}` -/
  | vNull

namespace TFValue

/-- Go `v, ok := x.(string)`. -/
def asString : TFValue → Option String
  | vStr s => some s
  | _ => none

/-- Go `v, ok := x.(bool)`. -/
def asBool : TFValue → Option Bool
  | vBool b => some b
  | _ => none

/-- Go `v, ok := x.(int)`. -/
def asInt : TFValue → Option Int
  | vInt n => some n
  | _ => none

/-- Go `v, ok := x.([]interface{})`. -/
def asList : TFValue → Option (List TFValue)
  | vList l => some l
  | _ => none

/-- Go `v, ok := x.(*schema.Set)` (a non-nil set). -/
def asSet : TFValue → Option (List TFValue)
  | vSet l => some l
  | _ => none

/-- Go `v, ok := x.(map[string]interface{})`; succeeds on (possibly nil)
maps. -/
def asMapT : TFValue → Option (Option (List (String × TFValue)))
  | vMap m => some m
  | _ => none

/-- Go `x == nil` on an `interface{}` value. -/
def isNull : TFValue → Bool
  | vNull => true
  | _ => false

end TFValue

open TFValue

/-- A `map[string]interface{}`: `none` is a nil map. -/
abbrev GoMap := Option (List (String × TFValue))

/-- The unchecked Go assertion `x.(map[string]interface{})` as used after a
non-nil guard.  On a value of a different dynamic type Go would panic; the
model returns the nil map there, a branch no schema-conformant caller input
reaches (every such call site is guarded so that `x` is a map). -/
def asMapD (x : TFValue) : GoMap := (x.asMapT).getD none

/-- `tfMap["k"]` on a (possibly nil) Go map: a missing key (or a nil map)
yields the nil interface. -/
def mapGet (m : GoMap) (k : String) : TFValue :=
  match m with
  | none => TFValue.vNull
  | some l => (l.lookup k).getD TFValue.vNull

/-- Go `len` of a (possibly nil) `map[string]interface{}`. -/
def goMapLen : GoMap → Nat
  | none => 0
  | some l => l.length

/-- `flex.ExpandStringSet` followed by dereferencing each `*string` (resp.
`flex.ExpandStringValueSet`): the string elements of the set, in iteration
order.  Go would panic on a non-string element; the model skips it, a branch
no schema-conformant set reaches. -/
def expandStringValueSet (l : List TFValue) : List String :=
  l.filterMap TFValue.asString

/-- Go's `int32(n)` cast of a non-negative length: two's-complement wrap to
the range `[-2^31, 2^31)`. -/
def int32ofNat (n : Nat) : Int :=
  let r := n % 4294967296
  if r < 2147483648 then (r : Int) else (r : Int) - 4294967296

/-! ## AWS API types (`awstypes`), cache policy

Pointer fields are `Option`; enum (named string) fields are `String` with
`""` as the zero value; nil slices are `[]`. -/

/-- `awstypes.CookieNames`. -/
structure CookieNames where
  Items : List String := []
  Quantity : Option Int := none
deriving DecidableEq, Repr

/-- `awstypes.Headers`. -/
structure Headers where
  Items : List String := []
  Quantity : Option Int := none
deriving DecidableEq, Repr

/-- `awstypes.QueryStringNames`. -/
structure QueryStringNames where
  Items : List String := []
  Quantity : Option Int := none
deriving DecidableEq, Repr

/-- `awstypes.CachePolicyCookiesConfig`. -/
structure CachePolicyCookiesConfig where
  CookieBehavior : String := ""
  Cookies : Option CookieNames := none
deriving DecidableEq, Repr

/-- `awstypes.CachePolicyHeadersConfig`. -/
structure CachePolicyHeadersConfig where
  HeaderBehavior : String := ""
  Headers : Option Headers := none
deriving DecidableEq, Repr

/-- `awstypes.CachePolicyQueryStringsConfig`. -/
structure CachePolicyQueryStringsConfig where
  QueryStringBehavior : String := ""
  QueryStrings : Option QueryStringNames := none
deriving DecidableEq, Repr

/-- `awstypes.ParametersInCacheKeyAndForwardedToOrigin`. -/
structure ParametersInCacheKeyAndForwardedToOrigin where
  CookiesConfig : Option CachePolicyCookiesConfig := none
  EnableAcceptEncodingBrotli : Option Bool := none
  EnableAcceptEncodingGzip : Option Bool := none
  HeadersConfig : Option CachePolicyHeadersConfig := none
  QueryStringsConfig : Option CachePolicyQueryStringsConfig := none
deriving DecidableEq, Repr

/-- `awstypes.CachePolicyConfig`. -/
structure CachePolicyConfig where
  Comment : Option String := none
  DefaultTTL : Option Int := none
  MaxTTL : Option Int := none
  MinTTL : Option Int := none
  Name : Option String := none
  ParametersInCacheKeyAndForwardedToOrigin :
    Option ParametersInCacheKeyAndForwardedToOrigin := none
deriving DecidableEq, Repr

/-! ## cache_policy.go: expand functions -/

/-- `expandCookieNames` (cache_policy.go). -/
def expandCookieNames : GoMap → Option CookieNames
  | none => none
  | some m =>
    let apiObject : CookieNames := {}
    let apiObject :=
      match (mapGet (some m) "items").asSet with
      | some v =>
        if 0 < v.length then
          let items := expandStringValueSet v
          { apiObject with Items := items, Quantity := some (int32ofNat items.length) }
        else apiObject
      | none => apiObject
    some apiObject

/-- `expandHeaders` (cache_policy.go). -/
def expandHeaders : GoMap → Option Headers
  | none => none
  | some m =>
    let apiObject : Headers := {}
    let apiObject :=
      match (mapGet (some m) "items").asSet with
      | some v =>
        if 0 < v.length then
          let items := expandStringValueSet v
          { apiObject with Items := items, Quantity := some (int32ofNat items.length) }
        else apiObject
      | none => apiObject
    some apiObject

/-- `expandQueryStringNames` (cache_policy.go). -/
def expandQueryStringNames : GoMap → Option QueryStringNames
  | none => none
  | some m =>
    let apiObject : QueryStringNames := {}
    let apiObject :=
      match (mapGet (some m) "items").asSet with
      | some v =>
        if 0 < v.length then
          let items := expandStringValueSet v
          { apiObject with Items := items, Quantity := some (int32ofNat items.length) }
        else apiObject
      | none => apiObject
    some apiObject

/-- `expandCachePolicyCookiesConfig` (cache_policy.go). -/
def expandCachePolicyCookiesConfig : GoMap → Option CachePolicyCookiesConfig
  | none => none
  | some m =>
    let apiObject : CachePolicyCookiesConfig := {}
    let apiObject :=
      match (mapGet (some m) "cookie_behavior").asString with
      | some v => if v ≠ "" then { apiObject with CookieBehavior := v } else apiObject
      | none => apiObject
    let apiObject :=
      match (mapGet (some m) "cookies").asList with
      | some v =>
        if 0 < v.length ∧ ¬ (v.headD TFValue.vNull).isNull then
          { apiObject with Cookies := expandCookieNames (asMapD (v.headD TFValue.vNull)) }
        else apiObject
      | none => apiObject
    some apiObject

/-- `expandCachePolicyHeadersConfig` (cache_policy.go). -/
def expandCachePolicyHeadersConfig : GoMap → Option CachePolicyHeadersConfig
  | none => none
  | some m =>
    let apiObject : CachePolicyHeadersConfig := {}
    let apiObject :=
      match (mapGet (some m) "header_behavior").asString with
      | some v => if v ≠ "" then { apiObject with HeaderBehavior := v } else apiObject
      | none => apiObject
    let apiObject :=
      match (mapGet (some m) "headers").asList with
      | some v =>
        if 0 < v.length ∧ ¬ (v.headD TFValue.vNull).isNull then
          { apiObject with Headers := expandHeaders (asMapD (v.headD TFValue.vNull)) }
        else apiObject
      | none => apiObject
    some apiObject

/-- `expandCachePolicyQueryStringsConfig` (cache_policy.go). -/
def expandCachePolicyQueryStringsConfig : GoMap → Option CachePolicyQueryStringsConfig
  | none => none
  | some m =>
    let apiObject : CachePolicyQueryStringsConfig := {}
    let apiObject :=
      match (mapGet (some m) "query_string_behavior").asString with
      | some v => if v ≠ "" then { apiObject with QueryStringBehavior := v } else apiObject
      | none => apiObject
    let apiObject :=
      match (mapGet (some m) "query_strings").asList with
      | some v =>
        if 0 < v.length ∧ ¬ (v.headD TFValue.vNull).isNull then
          { apiObject with QueryStrings := expandQueryStringNames (asMapD (v.headD TFValue.vNull)) }
        else apiObject
      | none => apiObject
    some apiObject

/-- `expandParametersInCacheKeyAndForwardedToOrigin` (cache_policy.go).  The
`cookies_config`/`headers_config`/`query_strings_config` branches only test
`len(v) > 0` (no nil check on `v[0]`) before the unchecked map assertion. -/
def expandParametersInCacheKeyAndForwardedToOrigin :
    GoMap → Option ParametersInCacheKeyAndForwardedToOrigin
  | none => none
  | some m =>
    let apiObject : ParametersInCacheKeyAndForwardedToOrigin := {}
    let apiObject :=
      match (mapGet (some m) "cookies_config").asList with
      | some v =>
        if 0 < v.length then
          { apiObject with CookiesConfig :=
              expandCachePolicyCookiesConfig (asMapD (v.headD TFValue.vNull)) }
        else apiObject
      | none => apiObject
    let apiObject :=
      match (mapGet (some m) "enable_accept_encoding_brotli").asBool with
      | some v => { apiObject with EnableAcceptEncodingBrotli := some v }
      | none => apiObject
    let apiObject :=
      match (mapGet (some m) "enable_accept_encoding_gzip").asBool with
      | some v => { apiObject with EnableAcceptEncodingGzip := some v }
      | none => apiObject
    let apiObject :=
      match (mapGet (some m) "headers_config").asList with
      | some v =>
        if 0 < v.length then
          { apiObject with HeadersConfig :=
              expandCachePolicyHeadersConfig (asMapD (v.headD TFValue.vNull)) }
        else apiObject
      | none => apiObject
    let apiObject :=
      match (mapGet (some m) "query_strings_config").asList with
      | some v =>
        if 0 < v.length then
          { apiObject with QueryStringsConfig :=
              expandCachePolicyQueryStringsConfig (asMapD (v.headD TFValue.vNull)) }
        else apiObject
      | none => apiObject
    some apiObject

/-! ## cache_policy.go: flatten functions -/

/-- `flattenCookieNames` (cache_policy.go): the `items` value written back is
the Go `[]string` slice, not a `*schema.Set`. -/
def flattenCookieNames : Option CookieNames → GoMap
  | none => none
  | some apiObject =>
    let tfMap : List (String × TFValue) := []
    let tfMap :=
      if 0 < apiObject.Items.length then
        tfMap ++ [("items", TFValue.vStrSlice apiObject.Items)]
      else tfMap
    some tfMap

/-- `flattenHeaders` (cache_policy.go). -/
def flattenHeaders : Option Headers → GoMap
  | none => none
  | some apiObject =>
    let tfMap : List (String × TFValue) := []
    let tfMap :=
      if 0 < apiObject.Items.length then
        tfMap ++ [("items", TFValue.vStrSlice apiObject.Items)]
      else tfMap
    some tfMap

/-- `flattenQueryStringNames` (cache_policy.go). -/
def flattenQueryStringNames : Option QueryStringNames → GoMap
  | none => none
  | some apiObject =>
    let tfMap : List (String × TFValue) := []
    let tfMap :=
      if 0 < apiObject.Items.length then
        tfMap ++ [("items", TFValue.vStrSlice apiObject.Items)]
      else tfMap
    some tfMap

/-- `flattenCachePolicyCookiesConfig` (cache_policy.go): the behavior is
written back as the enum value `awstypes.CachePolicyCookieBehavior(v)`, not a
plain string. -/
def flattenCachePolicyCookiesConfig : Option CachePolicyCookiesConfig → GoMap
  | none => none
  | some apiObject =>
    let tfMap : List (String × TFValue) := []
    let tfMap :=
      if apiObject.CookieBehavior ≠ "" then
        tfMap ++ [("cookie_behavior",
          TFValue.vEnum "CachePolicyCookieBehavior" apiObject.CookieBehavior)]
      else tfMap
    let tfMap :=
      let v := flattenCookieNames apiObject.Cookies
      if 0 < goMapLen v then tfMap ++ [("cookies", TFValue.vList [TFValue.vMap v])]
      else tfMap
    some tfMap

/-- `flattenCachePolicyHeadersConfig` (cache_policy.go). -/
def flattenCachePolicyHeadersConfig : Option CachePolicyHeadersConfig → GoMap
  | none => none
  | some apiObject =>
    let tfMap : List (String × TFValue) := []
    let tfMap :=
      if apiObject.HeaderBehavior ≠ "" then
        tfMap ++ [("header_behavior",
          TFValue.vEnum "CachePolicyHeaderBehavior" apiObject.HeaderBehavior)]
      else tfMap
    let tfMap :=
      let v := flattenHeaders apiObject.Headers
      if 0 < goMapLen v then tfMap ++ [("headers", TFValue.vList [TFValue.vMap v])]
      else tfMap
    some tfMap

/-- `flattenCachePolicyQueryStringsConfig` (cache_policy.go). -/
def flattenCachePolicyQueryStringsConfig : Option CachePolicyQueryStringsConfig → GoMap
  | none => none
  | some apiObject =>
    let tfMap : List (String × TFValue) := []
    let tfMap :=
      if apiObject.QueryStringBehavior ≠ "" then
        tfMap ++ [("query_string_behavior",
          TFValue.vEnum "CachePolicyQueryStringBehavior" apiObject.QueryStringBehavior)]
      else tfMap
    let tfMap :=
      let v := flattenQueryStringNames apiObject.QueryStrings
      if 0 < goMapLen v then tfMap ++ [("query_strings", TFValue.vList [TFValue.vMap v])]
      else tfMap
    some tfMap

/-- `flattenParametersInCacheKeyAndForwardedToOrigin` (cache_policy.go): the
boolean fields are written back as `aws.Bool(*v)`, i.e. as `*bool` values. -/
def flattenParametersInCacheKeyAndForwardedToOrigin :
    Option ParametersInCacheKeyAndForwardedToOrigin → GoMap
  | none => none
  | some apiObject =>
    let tfMap : List (String × TFValue) := []
    let tfMap :=
      let v := flattenCachePolicyCookiesConfig apiObject.CookiesConfig
      if 0 < goMapLen v then tfMap ++ [("cookies_config", TFValue.vList [TFValue.vMap v])]
      else tfMap
    let tfMap :=
      match apiObject.EnableAcceptEncodingBrotli with
      | some v => tfMap ++ [("enable_accept_encoding_brotli", TFValue.vPtrBool v)]
      | none => tfMap
    let tfMap :=
      match apiObject.EnableAcceptEncodingGzip with
      | some v => tfMap ++ [("enable_accept_encoding_gzip", TFValue.vPtrBool v)]
      | none => tfMap
    let tfMap :=
      let v := flattenCachePolicyHeadersConfig apiObject.HeadersConfig
      if 0 < goMapLen v then tfMap ++ [("headers_config", TFValue.vList [TFValue.vMap v])]
      else tfMap
    let tfMap :=
      let v := flattenCachePolicyQueryStringsConfig apiObject.QueryStringsConfig
      if 0 < goMapLen v then
        tfMap ++ [("query_strings_config", TFValue.vList [TFValue.vMap v])]
      else tfMap
    some tfMap

/-! ## AWS API types and expand/flatten: origin request policy -/

/-- `awstypes.OriginRequestPolicyCookiesConfig`. -/
structure OriginRequestPolicyCookiesConfig where
  CookieBehavior : String := ""
  Cookies : Option CookieNames := none
deriving DecidableEq, Repr

/-- `awstypes.OriginRequestPolicyHeadersConfig`. -/
structure OriginRequestPolicyHeadersConfig where
  HeaderBehavior : String := ""
  Headers : Option Headers := none
deriving DecidableEq, Repr

/-- `awstypes.OriginRequestPolicyQueryStringsConfig`. -/
structure OriginRequestPolicyQueryStringsConfig where
  QueryStringBehavior : String := ""
  QueryStrings : Option QueryStringNames := none
deriving DecidableEq, Repr

/-- `awstypes.OriginRequestPolicyConfig`. -/
structure OriginRequestPolicyConfig where
  Comment : Option String := none
  CookiesConfig : Option OriginRequestPolicyCookiesConfig := none
  HeadersConfig : Option OriginRequestPolicyHeadersConfig := none
  Name : Option String := none
  QueryStringsConfig : Option OriginRequestPolicyQueryStringsConfig := none
deriving DecidableEq, Repr

/-- `expandOriginRequestPolicyCookiesConfig` (origin_request_policy.go). -/
def expandOriginRequestPolicyCookiesConfig : GoMap → Option OriginRequestPolicyCookiesConfig
  | none => none
  | some m =>
    let apiObject : OriginRequestPolicyCookiesConfig := {}
    let apiObject :=
      match (mapGet (some m) "cookie_behavior").asString with
      | some v => if v ≠ "" then { apiObject with CookieBehavior := v } else apiObject
      | none => apiObject
    let apiObject :=
      match (mapGet (some m) "cookies").asList with
      | some v =>
        if 0 < v.length ∧ ¬ (v.headD TFValue.vNull).isNull then
          { apiObject with Cookies := expandCookieNames (asMapD (v.headD TFValue.vNull)) }
        else apiObject
      | none => apiObject
    some apiObject

/-- `expandOriginRequestPolicyHeadersConfig` (origin_request_policy.go). -/
def expandOriginRequestPolicyHeadersConfig : GoMap → Option OriginRequestPolicyHeadersConfig
  | none => none
  | some m =>
    let apiObject : OriginRequestPolicyHeadersConfig := {}
    let apiObject :=
      match (mapGet (some m) "header_behavior").asString with
      | some v => if v ≠ "" then { apiObject with HeaderBehavior := v } else apiObject
      | none => apiObject
    let apiObject :=
      match (mapGet (some m) "headers").asList with
      | some v =>
        if 0 < v.length ∧ ¬ (v.headD TFValue.vNull).isNull then
          { apiObject with Headers := expandHeaders (asMapD (v.headD TFValue.vNull)) }
        else apiObject
      | none => apiObject
    some apiObject

/-- `expandOriginRequestPolicyQueryStringsConfig` (origin_request_policy.go). -/
def expandOriginRequestPolicyQueryStringsConfig :
    GoMap → Option OriginRequestPolicyQueryStringsConfig
  | none => none
  | some m =>
    let apiObject : OriginRequestPolicyQueryStringsConfig := {}
    let apiObject :=
      match (mapGet (some m) "query_string_behavior").asString with
      | some v => if v ≠ "" then { apiObject with QueryStringBehavior := v } else apiObject
      | none => apiObject
    let apiObject :=
      match (mapGet (some m) "query_strings").asList with
      | some v =>
        if 0 < v.length ∧ ¬ (v.headD TFValue.vNull).isNull then
          { apiObject with QueryStrings := expandQueryStringNames (asMapD (v.headD TFValue.vNull)) }
        else apiObject
      | none => apiObject
    some apiObject

/-- `flattenOriginRequestPolicyCookiesConfig` (origin_request_policy.go). -/
def flattenOriginRequestPolicyCookiesConfig : Option OriginRequestPolicyCookiesConfig → GoMap
  | none => none
  | some apiObject =>
    let tfMap : List (String × TFValue) := []
    let tfMap :=
      if apiObject.CookieBehavior ≠ "" then
        tfMap ++ [("cookie_behavior",
          TFValue.vEnum "OriginRequestPolicyCookieBehavior" apiObject.CookieBehavior)]
      else tfMap
    let tfMap :=
      let v := flattenCookieNames apiObject.Cookies
      if 0 < goMapLen v then tfMap ++ [("cookies", TFValue.vList [TFValue.vMap v])]
      else tfMap
    some tfMap

/-- `flattenOriginRequestPolicyHeadersConfig` (origin_request_policy.go). -/
def flattenOriginRequestPolicyHeadersConfig : Option OriginRequestPolicyHeadersConfig → GoMap
  | none => none
  | some apiObject =>
    let tfMap : List (String × TFValue) := []
    let tfMap :=
      if apiObject.HeaderBehavior ≠ "" then
        tfMap ++ [("header_behavior",
          TFValue.vEnum "OriginRequestPolicyHeaderBehavior" apiObject.HeaderBehavior)]
      else tfMap
    let tfMap :=
      let v := flattenHeaders apiObject.Headers
      if 0 < goMapLen v then tfMap ++ [("headers", TFValue.vList [TFValue.vMap v])]
      else tfMap
    some tfMap

/-- `flattenOriginRequestPolicyQueryStringsConfig` (origin_request_policy.go). -/
def flattenOriginRequestPolicyQueryStringsConfig :
    Option OriginRequestPolicyQueryStringsConfig → GoMap
  | none => none
  | some apiObject =>
    let tfMap : List (String × TFValue) := []
    let tfMap :=
      if apiObject.QueryStringBehavior ≠ "" then
        tfMap ++ [("query_string_behavior",
          TFValue.vEnum "OriginRequestPolicyQueryStringBehavior" apiObject.QueryStringBehavior)]
      else tfMap
    let tfMap :=
      let v := flattenQueryStringNames apiObject.QueryStrings
      if 0 < goMapLen v then tfMap ++ [("query_strings", TFValue.vList [TFValue.vMap v])]
      else tfMap
    some tfMap

/-! ## AWS API types and expand/flatten: monitoring subscription -/

/-- `awstypes.RealtimeMetricsSubscriptionConfig`. -/
structure RealtimeMetricsSubscriptionConfig where
  RealtimeMetricsSubscriptionStatus : String := ""
deriving DecidableEq, Repr

/-- `awstypes.MonitoringSubscription`. -/
structure MonitoringSubscription where
  RealtimeMetricsSubscriptionConfig : Option RealtimeMetricsSubscriptionConfig := none
deriving DecidableEq, Repr

/-- `expandRealtimeMetricsSubscriptionConfig` (monitoring subscription file). -/
def expandRealtimeMetricsSubscriptionConfig : GoMap → Option RealtimeMetricsSubscriptionConfig
  | none => none
  | some m =>
    let apiObject : RealtimeMetricsSubscriptionConfig := {}
    let apiObject :=
      match (mapGet (some m) "realtime_metrics_subscription_status").asString with
      | some v =>
        if v ≠ "" then { apiObject with RealtimeMetricsSubscriptionStatus := v } else apiObject
      | none => apiObject
    some apiObject

/-- `expandMonitoringSubscription` (monitoring subscription file). -/
def expandMonitoringSubscription : GoMap → Option MonitoringSubscription
  | none => none
  | some m =>
    let apiObject : MonitoringSubscription := {}
    let apiObject :=
      match (mapGet (some m) "realtime_metrics_subscription_config").asList with
      | some v =>
        if 0 < v.length then
          { apiObject with RealtimeMetricsSubscriptionConfig :=
              expandRealtimeMetricsSubscriptionConfig (asMapD (v.headD TFValue.vNull)) }
        else apiObject
      | none => apiObject
    some apiObject

/-! ## AWS API types and expand functions: response headers policy
(only the parts the claims exercise) -/

/-- `awstypes.ResponseHeadersPolicyAccessControlAllowHeaders`. -/
structure ResponseHeadersPolicyAccessControlAllowHeaders where
  Items : List String := []
  Quantity : Option Int := none
deriving DecidableEq, Repr

/-- `awstypes.ResponseHeadersPolicyCustomHeader`. -/
structure ResponseHeadersPolicyCustomHeader where
  Header : Option String := none
  Override : Option Bool := none
  Value : Option String := none
deriving DecidableEq, Repr

/-- `awstypes.ResponseHeadersPolicyCustomHeadersConfig`. -/
structure ResponseHeadersPolicyCustomHeadersConfig where
  Items : List ResponseHeadersPolicyCustomHeader := []
  Quantity : Option Int := none
deriving DecidableEq, Repr

/-- `awstypes.ResponseHeadersPolicyRemoveHeader`. -/
structure ResponseHeadersPolicyRemoveHeader where
  Header : Option String := none
deriving DecidableEq, Repr

/-- `awstypes.ResponseHeadersPolicyRemoveHeadersConfig`. -/
structure ResponseHeadersPolicyRemoveHeadersConfig where
  Items : List ResponseHeadersPolicyRemoveHeader := []
  Quantity : Option Int := none
deriving DecidableEq, Repr

/-- `expandResponseHeadersPolicyAccessControlAllowHeaders` (response headers
policy file). -/
def expandResponseHeadersPolicyAccessControlAllowHeaders :
    GoMap → Option ResponseHeadersPolicyAccessControlAllowHeaders
  | none => none
  | some m =>
    let apiObject : ResponseHeadersPolicyAccessControlAllowHeaders := {}
    let apiObject :=
      match (mapGet (some m) "items").asSet with
      | some v =>
        if 0 < v.length then
          let items := expandStringValueSet v
          { apiObject with Items := items, Quantity := some (int32ofNat items.length) }
        else apiObject
      | none => apiObject
    some apiObject

/-- `expandResponseHeadersPolicyCustomHeader` (response headers policy file). -/
def expandResponseHeadersPolicyCustomHeader :
    GoMap → Option ResponseHeadersPolicyCustomHeader
  | none => none
  | some m =>
    let apiObject : ResponseHeadersPolicyCustomHeader := {}
    let apiObject :=
      match (mapGet (some m) "header").asString with
      | some v => if v ≠ "" then { apiObject with Header := some v } else apiObject
      | none => apiObject
    let apiObject :=
      match (mapGet (some m) "override").asBool with
      | some v => { apiObject with Override := some v }
      | none => apiObject
    let apiObject :=
      match (mapGet (some m) "value").asString with
      | some v => if v ≠ "" then { apiObject with Value := some v } else apiObject
      | none => apiObject
    some apiObject

/-- Loop body of `expandResponseHeadersPolicyCustomHeaders`: skip entries
that are not `map[string]interface{}` and entries whose expansion is nil,
append the rest. -/
def customHeadersLoopBody (apiObjects : List ResponseHeadersPolicyCustomHeader)
    (tfMapRaw : TFValue) : List ResponseHeadersPolicyCustomHeader :=
  match tfMapRaw.asMapT with
  | none => apiObjects
  | some tfMap =>
    match expandResponseHeadersPolicyCustomHeader tfMap with
    | none => apiObjects
    | some apiObject => apiObjects ++ [apiObject]

/-- `expandResponseHeadersPolicyCustomHeaders` (response headers policy file):
iterates over a `[]interface{}`, skipping entries that are not
`map[string]interface{}` and entries whose expansion is nil. -/
def expandResponseHeadersPolicyCustomHeaders (tfList : List TFValue) :
    List ResponseHeadersPolicyCustomHeader :=
  if tfList.length = 0 then []
  else tfList.foldl customHeadersLoopBody []

/-- `expandResponseHeadersPolicyCustomHeadersConfig` (response headers policy
file): `Quantity` is the length of the *expanded* item list. -/
def expandResponseHeadersPolicyCustomHeadersConfig :
    GoMap → Option ResponseHeadersPolicyCustomHeadersConfig
  | none => none
  | some m =>
    let apiObject : ResponseHeadersPolicyCustomHeadersConfig := {}
    let apiObject :=
      match (mapGet (some m) "items").asSet with
      | some v =>
        if 0 < v.length then
          let items := expandResponseHeadersPolicyCustomHeaders v
          { apiObject with Items := items, Quantity := some (int32ofNat items.length) }
        else apiObject
      | none => apiObject
    some apiObject

/-- `expandResponseHeadersPolicyRemoveHeader` (response headers policy file). -/
def expandResponseHeadersPolicyRemoveHeader :
    GoMap → Option ResponseHeadersPolicyRemoveHeader
  | none => none
  | some m =>
    let apiObject : ResponseHeadersPolicyRemoveHeader := {}
    let apiObject :=
      match (mapGet (some m) "header").asString with
      | some v => if v ≠ "" then { apiObject with Header := some v } else apiObject
      | none => apiObject
    some apiObject

/-- Loop body of `expandResponseHeadersPolicyRemoveHeaders`. -/
def removeHeadersLoopBody (apiObjects : List ResponseHeadersPolicyRemoveHeader)
    (tfMapRaw : TFValue) : List ResponseHeadersPolicyRemoveHeader :=
  match tfMapRaw.asMapT with
  | none => apiObjects
  | some tfMap =>
    match expandResponseHeadersPolicyRemoveHeader tfMap with
    | none => apiObjects
    | some apiObject => apiObjects ++ [apiObject]

/-- `expandResponseHeadersPolicyRemoveHeaders` (response headers policy file). -/
def expandResponseHeadersPolicyRemoveHeaders (tfList : List TFValue) :
    List ResponseHeadersPolicyRemoveHeader :=
  if tfList.length = 0 then []
  else tfList.foldl removeHeadersLoopBody []

/-- `expandResponseHeadersPolicyRemoveHeadersConfig` (response headers policy
file). -/
def expandResponseHeadersPolicyRemoveHeadersConfig :
    GoMap → Option ResponseHeadersPolicyRemoveHeadersConfig
  | none => none
  | some m =>
    let apiObject : ResponseHeadersPolicyRemoveHeadersConfig := {}
    let apiObject :=
      match (mapGet (some m) "items").asSet with
      | some v =>
        if 0 < v.length then
          let items := expandResponseHeadersPolicyRemoveHeaders v
          { apiObject with Items := items, Quantity := some (int32ofNat items.length) }
        else apiObject
      | none => apiObject
    some apiObject

/-! ## AWS API types and flatten functions: response headers policy
(the parts the read handler uses) -/

/-- `awstypes.ResponseHeadersPolicyAccessControlAllowMethods` (`Items` holds
values of the enum type
`ResponseHeadersPolicyAccessControlAllowMethodsValues`). -/
structure ResponseHeadersPolicyAccessControlAllowMethods where
  Items : List String := []
  Quantity : Option Int := none
deriving DecidableEq, Repr

/-- `awstypes.ResponseHeadersPolicyAccessControlAllowOrigins`. -/
structure ResponseHeadersPolicyAccessControlAllowOrigins where
  Items : List String := []
  Quantity : Option Int := none
deriving DecidableEq, Repr

/-- `awstypes.ResponseHeadersPolicyAccessControlExposeHeaders`. -/
structure ResponseHeadersPolicyAccessControlExposeHeaders where
  Items : List String := []
  Quantity : Option Int := none
deriving DecidableEq, Repr

/-- `awstypes.ResponseHeadersPolicyCorsConfig`. -/
structure ResponseHeadersPolicyCorsConfig where
  AccessControlAllowCredentials : Option Bool := none
  AccessControlAllowHeaders : Option ResponseHeadersPolicyAccessControlAllowHeaders := none
  AccessControlAllowMethods : Option ResponseHeadersPolicyAccessControlAllowMethods := none
  AccessControlAllowOrigins : Option ResponseHeadersPolicyAccessControlAllowOrigins := none
  AccessControlExposeHeaders : Option ResponseHeadersPolicyAccessControlExposeHeaders := none
  AccessControlMaxAgeSec : Option Int := none
  OriginOverride : Option Bool := none
deriving DecidableEq, Repr

/-- `awstypes.ResponseHeadersPolicyContentSecurityPolicy`. -/
structure ResponseHeadersPolicyContentSecurityPolicy where
  ContentSecurityPolicy : Option String := none
  Override : Option Bool := none
deriving DecidableEq, Repr

/-- `awstypes.ResponseHeadersPolicyContentTypeOptions`. -/
structure ResponseHeadersPolicyContentTypeOptions where
  Override : Option Bool := none
deriving DecidableEq, Repr

/-- `awstypes.ResponseHeadersPolicyFrameOptions` (`FrameOption` is the enum
string type `FrameOptionsList`). -/
structure ResponseHeadersPolicyFrameOptions where
  FrameOption : String := ""
  Override : Option Bool := none
deriving DecidableEq, Repr

/-- `awstypes.ResponseHeadersPolicyReferrerPolicy` (`ReferrerPolicy` is the
enum string type `ReferrerPolicyList`). -/
structure ResponseHeadersPolicyReferrerPolicy where
  Override : Option Bool := none
  ReferrerPolicy : String := ""
deriving DecidableEq, Repr

/-- `awstypes.ResponseHeadersPolicyStrictTransportSecurity`. -/
structure ResponseHeadersPolicyStrictTransportSecurity where
  AccessControlMaxAgeSec : Option Int := none
  IncludeSubdomains : Option Bool := none
  Override : Option Bool := none
  Preload : Option Bool := none
deriving DecidableEq, Repr

/-- `awstypes.ResponseHeadersPolicyXSSProtection`. -/
structure ResponseHeadersPolicyXSSProtection where
  ModeBlock : Option Bool := none
  Override : Option Bool := none
  Protection : Option Bool := none
  ReportUri : Option String := none
deriving DecidableEq, Repr

/-- `awstypes.ResponseHeadersPolicySecurityHeadersConfig`. -/
structure ResponseHeadersPolicySecurityHeadersConfig where
  ContentSecurityPolicy : Option ResponseHeadersPolicyContentSecurityPolicy := none
  ContentTypeOptions : Option ResponseHeadersPolicyContentTypeOptions := none
  FrameOptions : Option ResponseHeadersPolicyFrameOptions := none
  ReferrerPolicy : Option ResponseHeadersPolicyReferrerPolicy := none
  StrictTransportSecurity : Option ResponseHeadersPolicyStrictTransportSecurity := none
  XSSProtection : Option ResponseHeadersPolicyXSSProtection := none
deriving DecidableEq, Repr

/-- `awstypes.ResponseHeadersPolicyServerTimingHeadersConfig`. -/
structure ResponseHeadersPolicyServerTimingHeadersConfig where
  Enabled : Option Bool := none
  SamplingRate : Option GoFloat64 := none
deriving DecidableEq, Repr

/-- `awstypes.ResponseHeadersPolicyConfig`. -/
structure ResponseHeadersPolicyConfig where
  Comment : Option String := none
  CorsConfig : Option ResponseHeadersPolicyCorsConfig := none
  CustomHeadersConfig : Option ResponseHeadersPolicyCustomHeadersConfig := none
  Name : Option String := none
  RemoveHeadersConfig : Option ResponseHeadersPolicyRemoveHeadersConfig := none
  SecurityHeadersConfig : Option ResponseHeadersPolicySecurityHeadersConfig := none
  ServerTimingHeadersConfig : Option ResponseHeadersPolicyServerTimingHeadersConfig := none
deriving DecidableEq, Repr

/-- `flattenResponseHeadersPolicyAccessControlAllowHeaders` (response headers
policy file): the `items` written back are `aws.StringSlice(v)`, a
`[]*string`. -/
def flattenResponseHeadersPolicyAccessControlAllowHeaders :
    Option ResponseHeadersPolicyAccessControlAllowHeaders → GoMap
  | none => none
  | some apiObject =>
    let tfMap : List (String × TFValue) := []
    let tfMap :=
      if 0 < apiObject.Items.length then
        tfMap ++ [("items", TFValue.vPtrStrSlice apiObject.Items)]
      else tfMap
    some tfMap

/-- `flattenResponseHeadersPolicyAccessControlAllowMethods` (response headers
policy file): the `items` written back keep the enum slice type. -/
def flattenResponseHeadersPolicyAccessControlAllowMethods :
    Option ResponseHeadersPolicyAccessControlAllowMethods → GoMap
  | none => none
  | some apiObject =>
    let tfMap : List (String × TFValue) := []
    let tfMap :=
      if 0 < apiObject.Items.length then
        tfMap ++ [("items", TFValue.vEnumSlice
          "ResponseHeadersPolicyAccessControlAllowMethodsValues" apiObject.Items)]
      else tfMap
    some tfMap

/-- `flattenResponseHeadersPolicyAccessControlAllowOrigins` (response headers
policy file). -/
def flattenResponseHeadersPolicyAccessControlAllowOrigins :
    Option ResponseHeadersPolicyAccessControlAllowOrigins → GoMap
  | none => none
  | some apiObject =>
    let tfMap : List (String × TFValue) := []
    let tfMap :=
      if 0 < apiObject.Items.length then
        tfMap ++ [("items", TFValue.vPtrStrSlice apiObject.Items)]
      else tfMap
    some tfMap

/-- `flattenResponseHeadersPolicyAccessControlExposeHeaders` (response
headers policy file). -/
def flattenResponseHeadersPolicyAccessControlExposeHeaders :
    Option ResponseHeadersPolicyAccessControlExposeHeaders → GoMap
  | none => none
  | some apiObject =>
    let tfMap : List (String × TFValue) := []
    let tfMap :=
      if 0 < apiObject.Items.length then
        tfMap ++ [("items", TFValue.vPtrStrSlice apiObject.Items)]
      else tfMap
    some tfMap

/-- `flattenResponseHeadersPolicyCorsConfig` (response headers policy file):
`access_control_max_age_sec` is written back as `aws.Int32(*v)`, a
`*int32`. -/
def flattenResponseHeadersPolicyCorsConfig :
    Option ResponseHeadersPolicyCorsConfig → GoMap
  | none => none
  | some apiObject =>
    let tfMap : List (String × TFValue) := []
    let tfMap :=
      match apiObject.AccessControlAllowCredentials with
      | some v => tfMap ++ [("access_control_allow_credentials", TFValue.vBool v)]
      | none => tfMap
    let tfMap :=
      let v := flattenResponseHeadersPolicyAccessControlAllowHeaders
        apiObject.AccessControlAllowHeaders
      if 0 < goMapLen v then
        tfMap ++ [("access_control_allow_headers", TFValue.vList [TFValue.vMap v])]
      else tfMap
    let tfMap :=
      let v := flattenResponseHeadersPolicyAccessControlAllowMethods
        apiObject.AccessControlAllowMethods
      if 0 < goMapLen v then
        tfMap ++ [("access_control_allow_methods", TFValue.vList [TFValue.vMap v])]
      else tfMap
    let tfMap :=
      let v := flattenResponseHeadersPolicyAccessControlAllowOrigins
        apiObject.AccessControlAllowOrigins
      if 0 < goMapLen v then
        tfMap ++ [("access_control_allow_origins", TFValue.vList [TFValue.vMap v])]
      else tfMap
    let tfMap :=
      let v := flattenResponseHeadersPolicyAccessControlExposeHeaders
        apiObject.AccessControlExposeHeaders
      if 0 < goMapLen v then
        tfMap ++ [("access_control_expose_headers", TFValue.vList [TFValue.vMap v])]
      else tfMap
    let tfMap :=
      match apiObject.AccessControlMaxAgeSec with
      | some v => tfMap ++ [("access_control_max_age_sec", TFValue.vPtrInt v)]
      | none => tfMap
    let tfMap :=
      match apiObject.OriginOverride with
      | some v => tfMap ++ [("origin_override", TFValue.vBool v)]
      | none => tfMap
    some tfMap

/-- `flattenResponseHeadersPolicyCustomHeader` (response headers policy
file). -/
def flattenResponseHeadersPolicyCustomHeader :
    Option ResponseHeadersPolicyCustomHeader → GoMap
  | none => none
  | some apiObject =>
    let tfMap : List (String × TFValue) := []
    let tfMap :=
      match apiObject.Header with
      | some v => tfMap ++ [("header", TFValue.vStr v)]
      | none => tfMap
    let tfMap :=
      match apiObject.Override with
      | some v => tfMap ++ [("override", TFValue.vBool v)]
      | none => tfMap
    let tfMap :=
      match apiObject.Value with
      | some v => tfMap ++ [("value", TFValue.vStr v)]
      | none => tfMap
    some tfMap

/-- Loop body of `flattenResponseHeadersPolicyCustomHeaders` (the source's
`&apiObject == nil` guard on a range value is vacuous and dropped): keep
each header's non-empty flattened map. -/
def flattenCustomHeadersLoopBody (tfList : List TFValue)
    (apiObject : ResponseHeadersPolicyCustomHeader) : List TFValue :=
  let v := flattenResponseHeadersPolicyCustomHeader (some apiObject)
  if 0 < goMapLen v then tfList ++ [TFValue.vMap v] else tfList

/-- `flattenResponseHeadersPolicyCustomHeaders` (response headers policy
file). -/
def flattenResponseHeadersPolicyCustomHeaders
    (apiObjects : List ResponseHeadersPolicyCustomHeader) : List TFValue :=
  if apiObjects.length = 0 then []
  else apiObjects.foldl flattenCustomHeadersLoopBody []

/-- `flattenResponseHeadersPolicyCustomHeadersConfig` (response headers
policy file).  The parameter is a *value* (the read handler dereferences the
pointer at the call site), so the source's `&apiObject == nil` guard is
vacuous and the function always returns a non-nil map. -/
def flattenResponseHeadersPolicyCustomHeadersConfig
    (apiObject : ResponseHeadersPolicyCustomHeadersConfig) :
    List (String × TFValue) :=
  let tfMap : List (String × TFValue) := []
  let tfMap :=
    if 0 < apiObject.Items.length then
      tfMap ++ [("items", TFValue.vList
        (flattenResponseHeadersPolicyCustomHeaders apiObject.Items))]
    else tfMap
  tfMap

/-- `flattenResponseHeadersPolicyRemoveHeader` (response headers policy
file). -/
def flattenResponseHeadersPolicyRemoveHeader :
    Option ResponseHeadersPolicyRemoveHeader → GoMap
  | none => none
  | some apiObject =>
    let tfMap : List (String × TFValue) := []
    let tfMap :=
      match apiObject.Header with
      | some v => tfMap ++ [("header", TFValue.vStr v)]
      | none => tfMap
    some tfMap

/-- Loop body of `flattenResponseHeadersPolicyRemoveHeaders` (the vacuous
`&apiObject == nil` guard is dropped). -/
def flattenRemoveHeadersLoopBody (tfList : List TFValue)
    (apiObject : ResponseHeadersPolicyRemoveHeader) : List TFValue :=
  let v := flattenResponseHeadersPolicyRemoveHeader (some apiObject)
  if 0 < goMapLen v then tfList ++ [TFValue.vMap v] else tfList

/-- `flattenResponseHeadersPolicyRemoveHeaders` (response headers policy
file). -/
def flattenResponseHeadersPolicyRemoveHeaders
    (apiObjects : List ResponseHeadersPolicyRemoveHeader) : List TFValue :=
  if apiObjects.length = 0 then []
  else apiObjects.foldl flattenRemoveHeadersLoopBody []

/-- `flattenResponseHeadersPolicyRemoveHeadersConfig` (response headers
policy file). -/
def flattenResponseHeadersPolicyRemoveHeadersConfig :
    Option ResponseHeadersPolicyRemoveHeadersConfig → GoMap
  | none => none
  | some apiObject =>
    let tfMap : List (String × TFValue) := []
    let tfMap :=
      if 0 < apiObject.Items.length then
        tfMap ++ [("items", TFValue.vList
          (flattenResponseHeadersPolicyRemoveHeaders apiObject.Items))]
      else tfMap
    some tfMap

/-- `flattenResponseHeadersPolicyContentSecurityPolicy` (response headers
policy file). -/
def flattenResponseHeadersPolicyContentSecurityPolicy :
    Option ResponseHeadersPolicyContentSecurityPolicy → GoMap
  | none => none
  | some apiObject =>
    let tfMap : List (String × TFValue) := []
    let tfMap :=
      match apiObject.ContentSecurityPolicy with
      | some v => tfMap ++ [("content_security_policy", TFValue.vStr v)]
      | none => tfMap
    let tfMap :=
      match apiObject.Override with
      | some v => tfMap ++ [("override", TFValue.vBool v)]
      | none => tfMap
    some tfMap

/-- `flattenResponseHeadersPolicyContentTypeOptions` (response headers
policy file). -/
def flattenResponseHeadersPolicyContentTypeOptions :
    Option ResponseHeadersPolicyContentTypeOptions → GoMap
  | none => none
  | some apiObject =>
    let tfMap : List (String × TFValue) := []
    let tfMap :=
      match apiObject.Override with
      | some v => tfMap ++ [("override", TFValue.vBool v)]
      | none => tfMap
    some tfMap

/-- `flattenResponseHeadersPolicyFrameOptions` (response headers policy
file): the `&v != nil` guard on a local string is vacuously true, so
`frame_option` is always written, as a plain string. -/
def flattenResponseHeadersPolicyFrameOptions :
    Option ResponseHeadersPolicyFrameOptions → GoMap
  | none => none
  | some apiObject =>
    let tfMap : List (String × TFValue) := []
    let tfMap := tfMap ++ [("frame_option", TFValue.vStr apiObject.FrameOption)]
    let tfMap :=
      match apiObject.Override with
      | some v => tfMap ++ [("override", TFValue.vBool v)]
      | none => tfMap
    some tfMap

/-- `flattenResponseHeadersPolicyReferrerPolicy` (response headers policy
file): `override` is written back as `aws.Bool(*v)` (a `*bool`), and the
`&v != nil` guard is vacuously true, so `referrer_policy` is always written,
at the enum type `ReferrerPolicyList`. -/
def flattenResponseHeadersPolicyReferrerPolicy :
    Option ResponseHeadersPolicyReferrerPolicy → GoMap
  | none => none
  | some apiObject =>
    let tfMap : List (String × TFValue) := []
    let tfMap :=
      match apiObject.Override with
      | some v => tfMap ++ [("override", TFValue.vPtrBool v)]
      | none => tfMap
    let tfMap := tfMap ++
      [("referrer_policy", TFValue.vEnum "ReferrerPolicyList" apiObject.ReferrerPolicy)]
    some tfMap

/-- `flattenResponseHeadersPolicyStrictTransportSecurity` (response headers
policy file): every present field is written back as a pointer
(`aws.Int32(*v)` / `aws.Bool(*v)`). -/
def flattenResponseHeadersPolicyStrictTransportSecurity :
    Option ResponseHeadersPolicyStrictTransportSecurity → GoMap
  | none => none
  | some apiObject =>
    let tfMap : List (String × TFValue) := []
    let tfMap :=
      match apiObject.AccessControlMaxAgeSec with
      | some v => tfMap ++ [("access_control_max_age_sec", TFValue.vPtrInt v)]
      | none => tfMap
    let tfMap :=
      match apiObject.IncludeSubdomains with
      | some v => tfMap ++ [("include_subdomains", TFValue.vPtrBool v)]
      | none => tfMap
    let tfMap :=
      match apiObject.Override with
      | some v => tfMap ++ [("override", TFValue.vPtrBool v)]
      | none => tfMap
    let tfMap :=
      match apiObject.Preload with
      | some v => tfMap ++ [("preload", TFValue.vPtrBool v)]
      | none => tfMap
    some tfMap

/-- `flattenResponseHeadersPolicyXSSProtection` (response headers policy
file): the boolean fields are written back as `aws.Bool(*v)`. -/
def flattenResponseHeadersPolicyXSSProtection :
    Option ResponseHeadersPolicyXSSProtection → GoMap
  | none => none
  | some apiObject =>
    let tfMap : List (String × TFValue) := []
    let tfMap :=
      match apiObject.ModeBlock with
      | some v => tfMap ++ [("mode_block", TFValue.vPtrBool v)]
      | none => tfMap
    let tfMap :=
      match apiObject.Override with
      | some v => tfMap ++ [("override", TFValue.vPtrBool v)]
      | none => tfMap
    let tfMap :=
      match apiObject.Protection with
      | some v => tfMap ++ [("protection", TFValue.vPtrBool v)]
      | none => tfMap
    let tfMap :=
      match apiObject.ReportUri with
      | some v => tfMap ++ [("report_uri", TFValue.vStr v)]
      | none => tfMap
    some tfMap

/-- `flattenResponseHeadersPolicySecurityHeadersConfig` (response headers
policy file). -/
def flattenResponseHeadersPolicySecurityHeadersConfig :
    Option ResponseHeadersPolicySecurityHeadersConfig → GoMap
  | none => none
  | some apiObject =>
    let tfMap : List (String × TFValue) := []
    let tfMap :=
      let v := flattenResponseHeadersPolicyContentSecurityPolicy
        apiObject.ContentSecurityPolicy
      if 0 < goMapLen v then
        tfMap ++ [("content_security_policy", TFValue.vList [TFValue.vMap v])]
      else tfMap
    let tfMap :=
      let v := flattenResponseHeadersPolicyContentTypeOptions apiObject.ContentTypeOptions
      if 0 < goMapLen v then
        tfMap ++ [("content_type_options", TFValue.vList [TFValue.vMap v])]
      else tfMap
    let tfMap :=
      let v := flattenResponseHeadersPolicyFrameOptions apiObject.FrameOptions
      if 0 < goMapLen v then
        tfMap ++ [("frame_options", TFValue.vList [TFValue.vMap v])]
      else tfMap
    let tfMap :=
      let v := flattenResponseHeadersPolicyReferrerPolicy apiObject.ReferrerPolicy
      if 0 < goMapLen v then
        tfMap ++ [("referrer_policy", TFValue.vList [TFValue.vMap v])]
      else tfMap
    let tfMap :=
      let v := flattenResponseHeadersPolicyStrictTransportSecurity
        apiObject.StrictTransportSecurity
      if 0 < goMapLen v then
        tfMap ++ [("strict_transport_security", TFValue.vList [TFValue.vMap v])]
      else tfMap
    let tfMap :=
      let v := flattenResponseHeadersPolicyXSSProtection apiObject.XSSProtection
      if 0 < goMapLen v then
        tfMap ++ [("xss_protection", TFValue.vList [TFValue.vMap v])]
      else tfMap
    some tfMap

/-- `flattenResponseHeadersPolicyServerTimingHeadersConfig` (response
headers policy file): both fields are written back as pointers
(`aws.Bool(*v)` / `aws.Float64(*v)`). -/
def flattenResponseHeadersPolicyServerTimingHeadersConfig :
    Option ResponseHeadersPolicyServerTimingHeadersConfig → GoMap
  | none => none
  | some apiObject =>
    let tfMap : List (String × TFValue) := []
    let tfMap :=
      match apiObject.Enabled with
      | some v => tfMap ++ [("enabled", TFValue.vPtrBool v)]
      | none => tfMap
    let tfMap :=
      match apiObject.SamplingRate with
      | some v => tfMap ++ [("sampling_rate", TFValue.vPtrFloat v)]
      | none => tfMap
    some tfMap

/-! ## Type erasure for the round-trip claim

The flatten functions write back the *values* the expand functions read, but
at different Go dynamic types: `*bool` (`aws.Bool`) for plain `bool`, AWS
enum string types for plain `string`, `[]string` for `*schema.Set`.  `decay`
erases exactly these wrappers to the Terraform-side type. -/

mutual

/-- Erase the pointer/enum/slice wrappers the flatten functions introduce,
mapping every value back to its Terraform-side dynamic type. -/
def decay : TFValue → TFValue
  | .vEnum _ s => .vStr s
  | .vPtrBool b => .vBool b
  | .vPtrInt n => .vInt n
  | .vFloat f => .vFloat f
  | .vPtrFloat f => .vFloat f
  | .vStrSlice l => .vSet (l.map .vStr)
  | .vPtrStrSlice l => .vSet (l.map .vStr)
  | .vEnumSlice _ l => .vSet (l.map .vStr)
  | .vSet l => .vSet (decayList l)
  | .vList l => .vList (decayList l)
  | .vMap none => .vMap none
  | .vMap (some l) => .vMap (some (decayAList l))
  | .vBool b => .vBool b
  | .vInt n => .vInt n
  | .vStr s => .vStr s
  | .vNull => .vNull

/-- `decay` on every element of a list. -/
def decayList : List TFValue → List TFValue
  | [] => []
  | x :: xs => decay x :: decayList xs

/-- `decay` on every value of an association list. -/
def decayAList : List (String × TFValue) → List (String × TFValue)
  | [] => []
  | (k, v) :: xs => (k, decay v) :: decayAList xs

end

/-- `decay` on a (possibly nil) Go map. -/
def decayGoMap : GoMap → GoMap
  | none => none
  | some l => some (decayAList l)

/-! ## Handler infrastructure

Each lifecycle handler is embedded as a pure function from the resource's
current Terraform state (`...ResourceData`) and the results the AWS client
returns for each remote call the handler can make, to the run's observable
outcome: the ordered trace of events, the diagnostics, the `d.SetId` write
(if any) and the `d.Set` state writes. -/

/-- An error returned by the AWS SDK client: either a
`*route53domains/types.InvalidInput` error or any other error. -/
inductive AWSError where
  | invalidInput (msg : String)
  | other (msg : String)
deriving DecidableEq, Repr

/-- The message of an AWS error. -/
def AWSError.msg : AWSError → String
  | .invalidInput m => m
  | .other m => m

/-- `needle` occurs as a substring of `hay`. -/
def strContains (hay needle : String) : Bool :=
  (List.range (hay.data.length + 1)).any fun i => needle.data.isPrefixOf (hay.data.drop i)

/-- Modelled from the spec: `errs.IsAErrorMessageContains[*types.InvalidInput](err, s)`
from the repository's `internal/errs` package, which is not included under
`src/`.  Per the spec's delete-handler description ("treats \"not found\" as
success" for an InvalidInput error), it is true iff the error is non-nil, is
an `InvalidInput` error, and its message contains `s`; it is false on a nil
error and on every other error. -/
def isAErrorMessageContainsInvalidInput (e : Option AWSError) (s : String) : Bool :=
  match e with
  | some (.invalidInput m) => strContains m s
  | _ => false

/-- The result of the finder helpers (`FindCachePolicyByID`,
`FindFunctionByNameAndStage`, `findPublicKeyByID`, ...): either an output, a
`retry.NotFoundError` (the case `tfresource.NotFound` recognises), or any
other error. -/
inductive FindError where
  | notFound
  | err (e : AWSError)
deriving DecidableEq, Repr

/-- An observable action of a handler run. -/
inductive Event where
  /-- a call on the AWS client, by operation name -/
  | remoteCall (api : String)
  /-- `d.SetId(id)` -/
  | setId (id : String)
  /-- the trailing `resource...Read(ctx, d, meta)` invocation -/
  | invokeRead
deriving DecidableEq, Repr

/-- The remote operations called during a run, in order. -/
def remoteCalls (events : List Event) : List String :=
  events.filterMap fun e =>
    match e with
    | .remoteCall api => some api
    | _ => none

/-- `d.Set(k, v)` with a `*string` value: a nil pointer is the nil
interface. -/
def optStrV : Option String → TFValue
  | some s => .vStr s
  | none => .vNull

/-- `d.Set(k, v)` with a `*int64`/`*int32` value. -/
def optIntV : Option Int → TFValue
  | some n => .vInt n
  | none => .vNull

/-- Outcome of a handler run: event trace, diagnostics, final `d.SetId`
write if one happened, and the `d.Set` writes in order. -/
structure HandlerRun where
  events : List Event := []
  diags : List String := []
  storedId : Option String := none
  assigns : List (String × TFValue) := []

/-- The message carried by a finder result (`retry.NotFoundError` wraps the
underlying error; only its presence matters to the handlers). -/
def findErrMsg : FindError → String
  | .notFound => "not found"
  | .err e => e.msg

/-! ## Cache policy handlers (cache_policy.go) -/

/-- The Terraform state/config of an `aws_cloudfront_cache_policy` resource,
as the typed values `d.Get`/`d.Id`/`d.IsNewResource` return.  `comment = ""`
is the unset (zero) value, on which `d.GetOk` reports false. -/
structure CachePolicyResourceData where
  id : String := ""
  isNewResource : Bool := false
  comment : String := ""
  default_ttl : Int := 86400
  etag : String := ""
  max_ttl : Int := 31536000
  min_ttl : Int := 0
  name : String := ""
  parameters_in_cache_key_and_forwarded_to_origin : List TFValue := []

/-- `awstypes.CachePolicy`. -/
structure CachePolicy where
  Id : Option String := none
  CachePolicyConfig : CachePolicyConfig := {}
deriving DecidableEq

/-- `cloudfront.CreateCachePolicyOutput` (the `CachePolicy` pointer is
non-nil on success). -/
structure CreateCachePolicyOutput where
  CachePolicy : CachePolicy := {}
deriving DecidableEq

/-- `cloudfront.GetCachePolicyOutput`, as returned by `FindCachePolicyByID`. -/
structure GetCachePolicyOutput where
  CachePolicy : CachePolicy := {}
  ETag : Option String := none
deriving DecidableEq

/-- Outcome of a cache policy create/update run, additionally recording the
`CachePolicyConfig` sent to the remote endpoint. -/
structure CachePolicyCallRun where
  events : List Event := []
  diags : List String := []
  storedId : Option String := none
  sentConfig : CachePolicyConfig := {}

/-- `resourceCachePolicyCreate`: builds the full `CachePolicyConfig` from the
state, calls `CreateCachePolicy`, and on success stores
`output.CachePolicy.Id` and invokes the read handler. -/
def resourceCachePolicyCreate (d : CachePolicyResourceData)
    (createRes : Except AWSError CreateCachePolicyOutput) : CachePolicyCallRun :=
  let name := d.name
  let apiObject : CachePolicyConfig :=
    { DefaultTTL := some d.default_ttl, MaxTTL := some d.max_ttl,
      MinTTL := some d.min_ttl, Name := some name }
  let apiObject :=
    if d.comment ≠ "" then { apiObject with Comment := some d.comment } else apiObject
  let apiObject :=
    let v := d.parameters_in_cache_key_and_forwarded_to_origin
    if 0 < v.length ∧ ¬ (v.headD TFValue.vNull).isNull then
      { apiObject with ParametersInCacheKeyAndForwardedToOrigin :=
          expandParametersInCacheKeyAndForwardedToOrigin (asMapD (v.headD TFValue.vNull)) }
    else apiObject
  let events := [Event.remoteCall "CreateCachePolicy"]
  match createRes with
  | .error e =>
    { events := events, sentConfig := apiObject,
      diags := ["creating CloudFront Cache Policy (" ++ name ++ "): " ++ e.msg] }
  | .ok output =>
    { events := events ++ [.setId (output.CachePolicy.Id.getD ""), .invokeRead],
      storedId := some (output.CachePolicy.Id.getD ""), sentConfig := apiObject }

/-- `resourceCachePolicyRead`. -/
def resourceCachePolicyRead (d : CachePolicyResourceData)
    (findRes : Except FindError GetCachePolicyOutput) : HandlerRun :=
  let events := [Event.remoteCall "GetCachePolicy"]
  match findRes with
  | .error fe =>
    if ¬ d.isNewResource ∧ fe = FindError.notFound then
      { events := events ++ [.setId ""], storedId := some "" }
    else
      { events := events,
        diags := ["reading CloudFront Cache Policy (" ++ d.id ++ "): " ++ findErrMsg fe] }
  | .ok output =>
    let apiObject := output.CachePolicy.CachePolicyConfig
    { events := events,
      assigns :=
        [("comment", optStrV apiObject.Comment),
         ("default_ttl", optIntV apiObject.DefaultTTL),
         ("etag", optStrV output.ETag),
         ("max_ttl", optIntV apiObject.MaxTTL),
         ("min_ttl", optIntV apiObject.MinTTL),
         ("name", optStrV apiObject.Name)] ++
        (match apiObject.ParametersInCacheKeyAndForwardedToOrigin with
         | some p =>
           [("parameters_in_cache_key_and_forwarded_to_origin",
             TFValue.vList [TFValue.vMap
               (flattenParametersInCacheKeyAndForwardedToOrigin (some p))])]
         | none => [("parameters_in_cache_key_and_forwarded_to_origin", TFValue.vNull)]) }

/-- `resourceCachePolicyUpdate`: rebuilds the whole `CachePolicyConfig` from
the current state (the code comments cite the API reference: all fields are
replaced) and calls `UpdateCachePolicy` once. -/
def resourceCachePolicyUpdate (d : CachePolicyResourceData)
    (updateRes : Except AWSError Unit) : CachePolicyCallRun :=
  let apiObject : CachePolicyConfig :=
    { DefaultTTL := some d.default_ttl, MaxTTL := some d.max_ttl,
      MinTTL := some d.min_ttl, Name := some d.name }
  let apiObject :=
    if d.comment ≠ "" then { apiObject with Comment := some d.comment } else apiObject
  let apiObject :=
    let v := d.parameters_in_cache_key_and_forwarded_to_origin
    if 0 < v.length ∧ ¬ (v.headD TFValue.vNull).isNull then
      { apiObject with ParametersInCacheKeyAndForwardedToOrigin :=
          expandParametersInCacheKeyAndForwardedToOrigin (asMapD (v.headD TFValue.vNull)) }
    else apiObject
  let events := [Event.remoteCall "UpdateCachePolicy"]
  match updateRes with
  | .error e =>
    { events := events, sentConfig := apiObject,
      diags := ["updating CloudFront Cache Policy (" ++ d.id ++ "): " ++ e.msg] }
  | .ok _ =>
    { events := events ++ [.invokeRead], sentConfig := apiObject }

/-- `resourceCachePolicyDelete`. -/
def resourceCachePolicyDelete (d : CachePolicyResourceData)
    (deleteErr : Option AWSError) : HandlerRun :=
  let events := [Event.remoteCall "DeleteCachePolicy"]
  if isAErrorMessageContainsInvalidInput deleteErr "not found" then
    { events := events }
  else
    match deleteErr with
    | some e =>
      { events := events,
        diags := ["deleting CloudFront Cache Policy (" ++ d.id ++ "): " ++ e.msg] }
    | none => { events := events }

/-! ## Origin request policy handlers (origin_request_policy.go) -/

/-- State of an `aws_cloudfront_origin_request_policy` resource (the fields
the read/delete handlers use). -/
structure OriginRequestPolicyResourceData where
  id : String := ""
  isNewResource : Bool := false
  etag : String := ""

/-- `awstypes.OriginRequestPolicy`. -/
structure OriginRequestPolicy where
  Id : Option String := none
  OriginRequestPolicyConfig : OriginRequestPolicyConfig := {}
deriving DecidableEq

/-- `cloudfront.GetOriginRequestPolicyOutput`, as returned by
`FindOriginRequestPolicyByID`. -/
structure GetOriginRequestPolicyOutput where
  OriginRequestPolicy : OriginRequestPolicy := {}
  ETag : Option String := none
deriving DecidableEq

/-- `resourceOriginRequestPolicyRead`. -/
def resourceOriginRequestPolicyRead (d : OriginRequestPolicyResourceData)
    (findRes : Except FindError GetOriginRequestPolicyOutput) : HandlerRun :=
  let events := [Event.remoteCall "GetOriginRequestPolicy"]
  match findRes with
  | .error fe =>
    if ¬ d.isNewResource ∧ fe = FindError.notFound then
      { events := events ++ [.setId ""], storedId := some "" }
    else
      { events := events,
        diags := ["reading CloudFront Origin Request Policy (" ++ d.id ++ "): " ++ findErrMsg fe] }
  | .ok output =>
    let apiObject := output.OriginRequestPolicy.OriginRequestPolicyConfig
    { events := events,
      assigns :=
        [("comment", optStrV apiObject.Comment)] ++
        (match apiObject.CookiesConfig with
         | some c =>
           [("cookies_config",
             TFValue.vList [TFValue.vMap (flattenOriginRequestPolicyCookiesConfig (some c))])]
         | none => [("cookies_config", TFValue.vNull)]) ++
        [("etag", optStrV output.ETag)] ++
        (match apiObject.HeadersConfig with
         | some c =>
           [("headers_config",
             TFValue.vList [TFValue.vMap (flattenOriginRequestPolicyHeadersConfig (some c))])]
         | none => [("headers_config", TFValue.vNull)]) ++
        [("name", optStrV apiObject.Name)] ++
        (match apiObject.QueryStringsConfig with
         | some c =>
           [("query_strings_config",
             TFValue.vList [TFValue.vMap (flattenOriginRequestPolicyQueryStringsConfig (some c))])]
         | none => [("query_strings_config", TFValue.vNull)]) }

/-- `resourceOriginRequestPolicyDelete`. -/
def resourceOriginRequestPolicyDelete (d : OriginRequestPolicyResourceData)
    (deleteErr : Option AWSError) : HandlerRun :=
  let events := [Event.remoteCall "DeleteOriginRequestPolicy"]
  if isAErrorMessageContainsInvalidInput deleteErr "not found" then
    { events := events }
  else
    match deleteErr with
    | some e =>
      { events := events,
        diags := ["deleting CloudFront Origin Request Policy (" ++ d.id ++ "): " ++ e.msg] }
    | none => { events := events }

/-! ## Public key handlers (public key file) -/

/-- State of an `aws_cloudfront_public_key` resource (fields the read/delete
handlers use). -/
structure PublicKeyResourceData where
  id : String := ""
  isNewResource : Bool := false
  etag : String := ""

/-- `awstypes.PublicKeyConfig`. -/
structure PublicKeyConfig where
  CallerReference : Option String := none
  Comment : Option String := none
  EncodedKey : Option String := none
  Name : Option String := none
deriving DecidableEq

/-- `awstypes.PublicKey`. -/
structure PublicKey where
  Id : Option String := none
  PublicKeyConfig : PublicKeyConfig := {}
deriving DecidableEq

/-- `cloudfront.GetPublicKeyOutput`, as returned by `findPublicKeyByID`
(whose non-nil guards guarantee `PublicKey` and `PublicKeyConfig`). -/
structure GetPublicKeyOutput where
  PublicKey : PublicKey := {}
  ETag : Option String := none
deriving DecidableEq

/-- `resourcePublicKeyRead`.  `create.NamePrefixFromName` lives in the
repository's `internal/create` package, which is not included under `src/`;
the handler is parametric in it (`namePrefixFromName`), since no claim
depends on its value. -/
def resourcePublicKeyRead (namePrefixFromName : String → Option String)
    (d : PublicKeyResourceData)
    (findRes : Except FindError GetPublicKeyOutput) : HandlerRun :=
  let events := [Event.remoteCall "GetPublicKey"]
  match findRes with
  | .error fe =>
    if ¬ d.isNewResource ∧ fe = FindError.notFound then
      { events := events ++ [.setId ""], storedId := some "" }
    else
      { events := events,
        diags := ["reading CloudFront Public Key (" ++ d.id ++ "): " ++ findErrMsg fe] }
  | .ok output =>
    let publicKeyConfig := output.PublicKey.PublicKeyConfig
    { events := events,
      assigns :=
        [("caller_reference", optStrV publicKeyConfig.CallerReference),
         ("comment", optStrV publicKeyConfig.Comment),
         ("encoded_key", optStrV publicKeyConfig.EncodedKey),
         ("etag", optStrV output.ETag),
         ("name", optStrV publicKeyConfig.Name),
         ("name_prefix", optStrV (namePrefixFromName (publicKeyConfig.Name.getD "")))] }

/-- `resourcePublicKeyDelete`. -/
def resourcePublicKeyDelete (d : PublicKeyResourceData)
    (deleteErr : Option AWSError) : HandlerRun :=
  let events := [Event.remoteCall "DeletePublicKey"]
  if isAErrorMessageContainsInvalidInput deleteErr "not found" then
    { events := events }
  else
    match deleteErr with
    | some e =>
      { events := events,
        diags := ["deleting CloudFront Public Key (" ++ d.id ++ "): " ++ e.msg] }
    | none => { events := events }

/-! ## Monitoring subscription handlers (monitoring subscription file) -/

/-- State of an `aws_cloudfront_monitoring_subscription` resource. -/
structure MonitoringSubResourceData where
  id : String := ""
  isNewResource : Bool := false
  distribution_id : String := ""
  monitoring_subscription : List TFValue := []

/-- `cloudfront.CreateMonitoringSubscriptionOutput`.  The create handler
discards it (`_, err := conn.CreateMonitoringSubscription(...)`). -/
structure CreateMonitoringSubscriptionOutput where
  MonitoringSubscription : Option MonitoringSubscription := none
deriving DecidableEq

/-- Outcome of a monitoring subscription create run, also recording the
`MonitoringSubscription` payload sent to the remote endpoint. -/
structure MonitoringSubCreateRun where
  events : List Event := []
  diags : List String := []
  storedId : Option String := none
  sentMonitoringSubscription : Option MonitoringSubscription := none

/-- `resourceMonitoringSubscriptionCreate`: stores the configured
`distribution_id` as the resource identifier (the create output is
discarded). -/
def resourceMonitoringSubscriptionCreate (d : MonitoringSubResourceData)
    (createRes : Except AWSError CreateMonitoringSubscriptionOutput) :
    MonitoringSubCreateRun :=
  let id := d.distribution_id
  let sent :=
    let v := d.monitoring_subscription
    if 0 < v.length ∧ ¬ (v.headD TFValue.vNull).isNull then
      expandMonitoringSubscription (asMapD (v.headD TFValue.vNull))
    else none
  let events := [Event.remoteCall "CreateMonitoringSubscription"]
  match createRes with
  | .error e =>
    { events := events, sentMonitoringSubscription := sent,
      diags := ["creating CloudFront Monitoring Subscription (" ++ id ++ "): " ++ e.msg] }
  | .ok _ =>
    { events := events ++ [.setId id, .invokeRead],
      storedId := some id, sentMonitoringSubscription := sent }

/-- The `UpdateWithoutTimeout` handler registered by
`ResourceMonitoringSubscription`: it is `resourceMonitoringSubscriptionCreate`
itself (there is no separate update endpoint for this resource). -/
def resourceMonitoringSubscriptionUpdateRegistered :
    MonitoringSubResourceData →
    Except AWSError CreateMonitoringSubscriptionOutput → MonitoringSubCreateRun :=
  resourceMonitoringSubscriptionCreate

/-- `resourceMonitoringSubscriptionDelete`. -/
def resourceMonitoringSubscriptionDelete (d : MonitoringSubResourceData)
    (deleteErr : Option AWSError) : HandlerRun :=
  let events := [Event.remoteCall "DeleteMonitoringSubscription"]
  if isAErrorMessageContainsInvalidInput deleteErr "not found" then
    { events := events }
  else
    match deleteErr with
    | some e =>
      { events := events,
        diags := ["deleting CloudFront Monitoring Subscription (" ++ d.id ++ "): " ++ e.msg] }
    | none => { events := events }

/-! ## Response headers policy delete handler (response headers policy file) -/

/-- State of an `aws_cloudfront_response_headers_policy` resource (fields the
read/delete handlers use). -/
structure ResponseHeadersPolicyResourceData where
  id : String := ""
  isNewResource : Bool := false
  etag : String := ""

/-- `awstypes.ResponseHeadersPolicy`. -/
structure ResponseHeadersPolicy where
  Id : Option String := none
  ResponseHeadersPolicyConfig : ResponseHeadersPolicyConfig := {}
deriving DecidableEq

/-- `cloudfront.GetResponseHeadersPolicyOutput`, as returned by
`FindResponseHeadersPolicyByID`. -/
structure GetResponseHeadersPolicyOutput where
  ResponseHeadersPolicy : ResponseHeadersPolicy := {}
  ETag : Option String := none
deriving DecidableEq

/-- `resourceResponseHeadersPolicyRead`.  On success it copies `comment`,
`cors_config`, `custom_headers_config`, `etag`, `name`,
`remove_headers_config`, `security_headers_config` and
`server_timing_headers_config` from the API response, setting each nested
block to nil exactly when the corresponding sub-object is nil (the
custom-headers block is flattened from the dereferenced value
`*apiObject.CustomHeadersConfig`). -/
def resourceResponseHeadersPolicyRead (d : ResponseHeadersPolicyResourceData)
    (findRes : Except FindError GetResponseHeadersPolicyOutput) : HandlerRun :=
  let events := [Event.remoteCall "GetResponseHeadersPolicy"]
  match findRes with
  | .error fe =>
    if ¬ d.isNewResource ∧ fe = FindError.notFound then
      { events := events ++ [.setId ""], storedId := some "" }
    else
      { events := events,
        diags := ["reading CloudFront Response Headers Policy (" ++ d.id ++ "): " ++
          findErrMsg fe] }
  | .ok output =>
    let apiObject := output.ResponseHeadersPolicy.ResponseHeadersPolicyConfig
    { events := events,
      assigns :=
        [("comment", optStrV apiObject.Comment)] ++
        (match apiObject.CorsConfig with
         | some c =>
           [("cors_config", TFValue.vList
              [TFValue.vMap (flattenResponseHeadersPolicyCorsConfig (some c))])]
         | none => [("cors_config", TFValue.vNull)]) ++
        (match apiObject.CustomHeadersConfig with
         | some c =>
           [("custom_headers_config", TFValue.vList
              [TFValue.vMap (some (flattenResponseHeadersPolicyCustomHeadersConfig c))])]
         | none => [("custom_headers_config", TFValue.vNull)]) ++
        [("etag", optStrV output.ETag)] ++
        [("name", optStrV apiObject.Name)] ++
        (match apiObject.RemoveHeadersConfig with
         | some c =>
           [("remove_headers_config", TFValue.vList
              [TFValue.vMap (flattenResponseHeadersPolicyRemoveHeadersConfig (some c))])]
         | none => [("remove_headers_config", TFValue.vNull)]) ++
        (match apiObject.SecurityHeadersConfig with
         | some c =>
           [("security_headers_config", TFValue.vList
              [TFValue.vMap (flattenResponseHeadersPolicySecurityHeadersConfig (some c))])]
         | none => [("security_headers_config", TFValue.vNull)]) ++
        (match apiObject.ServerTimingHeadersConfig with
         | some c =>
           [("server_timing_headers_config", TFValue.vList
              [TFValue.vMap
                (flattenResponseHeadersPolicyServerTimingHeadersConfig (some c))])]
         | none => [("server_timing_headers_config", TFValue.vNull)]) }

/-- `resourceResponseHeadersPolicyDelete`. -/
def resourceResponseHeadersPolicyDelete (d : ResponseHeadersPolicyResourceData)
    (deleteErr : Option AWSError) : HandlerRun :=
  let events := [Event.remoteCall "DeleteResponseHeadersPolicy"]
  if isAErrorMessageContainsInvalidInput deleteErr "not found" then
    { events := events }
  else
    match deleteErr with
    | some e =>
      { events := events,
        diags := ["deleting CloudFront Response Headers Policy (" ++ d.id ++ "): " ++ e.msg] }
    | none => { events := events }

/-! ## Function handlers (function file) -/

/-- State of an `aws_cloudfront_function` resource.  `hasChangeCodeCommentRuntime`
is the value of `d.HasChanges("code", "comment", "runtime")` in the update
handler. -/
structure FunctionResourceData where
  id : String := ""
  isNewResource : Bool := false
  code : String := ""
  comment : String := ""
  etag : String := ""
  name : String := ""
  publish : Bool := true
  runtime : String := ""
  hasChangeCodeCommentRuntime : Bool := false

/-- `awstypes.FunctionConfig`. -/
structure FunctionConfig where
  Comment : Option String := none
  Runtime : String := ""
deriving DecidableEq

/-- `awstypes.FunctionMetadata`. -/
structure FunctionMetadata where
  FunctionARN : Option String := none
deriving DecidableEq

/-- `awstypes.FunctionSummary` (the pointer fields the handlers dereference
are modelled as present). -/
structure FunctionSummary where
  Name : Option String := none
  Status : Option String := none
  FunctionConfig : FunctionConfig := {}
  FunctionMetadata : FunctionMetadata := {}
deriving DecidableEq

/-- `cloudfront.CreateFunctionOutput`. -/
structure CreateFunctionOutput where
  FunctionSummary : FunctionSummary := {}
  ETag : Option String := none
deriving DecidableEq

/-- `cloudfront.DescribeFunctionOutput`, as returned by
`FindFunctionByNameAndStage`. -/
structure DescribeFunctionOutput where
  FunctionSummary : FunctionSummary := {}
  ETag : Option String := none
deriving DecidableEq

/-- `cloudfront.GetFunctionOutput` (`FunctionCode` is the `[]byte` body as a
string). -/
structure GetFunctionOutput where
  FunctionCode : String := ""
deriving DecidableEq

/-- `cloudfront.UpdateFunctionOutput`. -/
structure UpdateFunctionOutput where
  ETag : Option String := none
deriving DecidableEq

/-- `resourceFunctionCreate`: calls `CreateFunction`; on success stores
`output.FunctionSummary.Name` as the identifier, then publishes the function
when `publish` is set, then invokes the read handler. -/
def resourceFunctionCreate (d : FunctionResourceData)
    (createRes : Except AWSError CreateFunctionOutput)
    (publishRes : Except AWSError Unit) : HandlerRun :=
  let functionName := d.name
  let events := [Event.remoteCall "CreateFunction"]
  match createRes with
  | .error e =>
    { events := events,
      diags := ["creating CloudFront Function (" ++ functionName ++ "): " ++ e.msg] }
  | .ok output =>
    let newId := output.FunctionSummary.Name.getD ""
    let events := events ++ [Event.setId newId]
    if d.publish then
      let events := events ++ [Event.remoteCall "PublishFunction"]
      match publishRes with
      | .error e =>
        { events := events, storedId := some newId,
          diags := ["publishing CloudFront Function (" ++ newId ++ "): " ++ e.msg] }
      | .ok _ =>
        { events := events ++ [Event.invokeRead], storedId := some newId }
    else
      { events := events ++ [Event.invokeRead], storedId := some newId }

/-- `resourceFunctionRead`: finds the DEVELOPMENT-stage function, copies its
fields, fetches its code, then reads the LIVE stage (tolerating not-found by
storing an empty `live_stage_etag`). -/
def resourceFunctionRead (d : FunctionResourceData)
    (devRes : Except FindError DescribeFunctionOutput)
    (getRes : Except AWSError GetFunctionOutput)
    (liveRes : Except FindError DescribeFunctionOutput) : HandlerRun :=
  let events := [Event.remoteCall "DescribeFunction"]
  match devRes with
  | .error fe =>
    if ¬ d.isNewResource ∧ fe = FindError.notFound then
      { events := events ++ [.setId ""], storedId := some "" }
    else
      { events := events,
        diags := ["reading CloudFront Function (" ++ d.id ++ ") DEVELOPMENT stage: " ++
          findErrMsg fe] }
  | .ok describeFunctionOutput =>
    let assigns :=
      [("arn", optStrV describeFunctionOutput.FunctionSummary.FunctionMetadata.FunctionARN),
       ("comment", optStrV describeFunctionOutput.FunctionSummary.FunctionConfig.Comment),
       ("etag", optStrV describeFunctionOutput.ETag),
       ("name", optStrV describeFunctionOutput.FunctionSummary.Name),
       ("runtime", TFValue.vEnum "FunctionRuntime"
          describeFunctionOutput.FunctionSummary.FunctionConfig.Runtime),
       ("status", optStrV describeFunctionOutput.FunctionSummary.Status)]
    let events := events ++ [Event.remoteCall "GetFunction"]
    match getRes with
    | .error e =>
      { events := events, assigns := assigns,
        diags := ["reading CloudFront Function (" ++ d.id ++ ") DEVELOPMENT stage code: " ++
          e.msg] }
    | .ok getFunctionOutput =>
      let assigns := assigns ++ [("code", TFValue.vStr getFunctionOutput.FunctionCode)]
      let events := events ++ [Event.remoteCall "DescribeFunction"]
      match liveRes with
      | .error FindError.notFound =>
        { events := events, assigns := assigns ++ [("live_stage_etag", TFValue.vStr "")] }
      | .error (FindError.err e) =>
        { events := events, assigns := assigns,
          diags := ["reading CloudFront Function (" ++ d.id ++ ") LIVE stage: " ++ e.msg] }
      | .ok live =>
        { events := events, assigns := assigns ++ [("live_stage_etag", optStrV live.ETag)] }

/-- `resourceFunctionUpdate`: calls `UpdateFunction` only when one of
`code`, `comment`, `runtime` changed; independently publishes when `publish`
is set; then invokes the read handler. -/
def resourceFunctionUpdate (d : FunctionResourceData)
    (updateRes : Except AWSError UpdateFunctionOutput)
    (publishRes : Except AWSError Unit) : HandlerRun :=
  if d.hasChangeCodeCommentRuntime then
    let events := [Event.remoteCall "UpdateFunction"]
    match updateRes with
    | .error e =>
      { events := events,
        diags := ["updating CloudFront Function (" ++ d.id ++ "): " ++ e.msg] }
    | .ok _ =>
      if d.publish then
        let events := events ++ [Event.remoteCall "PublishFunction"]
        match publishRes with
        | .error e =>
          { events := events,
            diags := ["publishing CloudFront Function (" ++ d.id ++ "): " ++ e.msg] }
        | .ok _ => { events := events ++ [Event.invokeRead] }
      else
        { events := events ++ [Event.invokeRead] }
  else
    if d.publish then
      let events := [Event.remoteCall "PublishFunction"]
      match publishRes with
      | .error e =>
        { events := events,
          diags := ["publishing CloudFront Function (" ++ d.id ++ "): " ++ e.msg] }
      | .ok _ => { events := events ++ [Event.invokeRead] }
    else
      { events := [Event.invokeRead] }

/-- `resourceFunctionDelete`. -/
def resourceFunctionDelete (d : FunctionResourceData)
    (deleteErr : Option AWSError) : HandlerRun :=
  let events := [Event.remoteCall "DeleteFunction"]
  if isAErrorMessageContainsInvalidInput deleteErr "not found" then
    { events := events }
  else
    match deleteErr with
    | some e =>
      { events := events,
        diags := ["deleting CloudFront Function (" ++ d.id ++ "): " ++ e.msg] }
    | none => { events := events }

/-! ## Schema-shaped inputs for the round-trip claim

A well-formed Terraform-side value of the cache policy's
`parameters_in_cache_key_and_forwarded_to_origin` block, per the resource
schema: a required `cookies_config` block (required `cookie_behavior` string,
optional `cookies.items` set), two optional booleans, a required
`headers_config` block (optional `header_behavior`, optional `headers.items`)
and a required `query_strings_config` block.  `paramsToTFMap` injects it into
the generic map representation, with keys in the (alphabetical) order
`d.Get` presents them; `wellFormedParams` states the claim's side condition
that every present nested block is non-empty. -/

/-- The `cookies_config` block: required behavior, optional `cookies.items`. -/
structure CookiesBlockTF where
  behavior : String
  items : Option (List String)

/-- The `headers_config` block: optional behavior (it is `Optional` in the
schema), optional `headers.items`. -/
structure HeadersBlockTF where
  behavior : Option String
  items : Option (List String)

/-- The `query_strings_config` block: required behavior, optional
`query_strings.items`. -/
structure QueryStringsBlockTF where
  behavior : String
  items : Option (List String)

/-- A schema-shaped `parameters_in_cache_key_and_forwarded_to_origin` value. -/
structure ParamsTF where
  cookies : CookiesBlockTF
  brotli : Option Bool
  gzip : Option Bool
  headers : HeadersBlockTF
  queryStrings : QueryStringsBlockTF

/-- The generic map for a `cookies_config` block element. -/
def cookiesBlockToTF (c : CookiesBlockTF) : List (String × TFValue) :=
  [("cookie_behavior", TFValue.vStr c.behavior)] ++
  (match c.items with
   | some its =>
     [("cookies", TFValue.vList
        [TFValue.vMap (some [("items", TFValue.vSet (its.map TFValue.vStr))])])]
   | none => [])

/-- The generic map for a `headers_config` block element. -/
def headersBlockToTF (c : HeadersBlockTF) : List (String × TFValue) :=
  (match c.behavior with
   | some b => [("header_behavior", TFValue.vStr b)]
   | none => []) ++
  (match c.items with
   | some its =>
     [("headers", TFValue.vList
        [TFValue.vMap (some [("items", TFValue.vSet (its.map TFValue.vStr))])])]
   | none => [])

/-- The generic map for a `query_strings_config` block element. -/
def queryStringsBlockToTF (c : QueryStringsBlockTF) : List (String × TFValue) :=
  [("query_string_behavior", TFValue.vStr c.behavior)] ++
  (match c.items with
   | some its =>
     [("query_strings", TFValue.vList
        [TFValue.vMap (some [("items", TFValue.vSet (its.map TFValue.vStr))])])]
   | none => [])

/-- The generic map for the whole parameters block. -/
def paramsToTFMap (p : ParamsTF) : List (String × TFValue) :=
  [("cookies_config", TFValue.vList [TFValue.vMap (some (cookiesBlockToTF p.cookies))])] ++
  (match p.brotli with
   | some b => [("enable_accept_encoding_brotli", TFValue.vBool b)]
   | none => []) ++
  (match p.gzip with
   | some b => [("enable_accept_encoding_gzip", TFValue.vBool b)]
   | none => []) ++
  [("headers_config", TFValue.vList [TFValue.vMap (some (headersBlockToTF p.headers))])] ++
  [("query_strings_config",
    TFValue.vList [TFValue.vMap (some (queryStringsBlockToTF p.queryStrings))])]

/-- A present optional string is non-empty. -/
def optStrNonempty : Option String → Bool
  | some s => s ≠ ""
  | none => true

/-- A present optional item list is non-empty. -/
def optListNonempty : Option (List String) → Bool
  | some l => ¬ l.isEmpty
  | none => true

/-- The round-trip claim's side condition: behaviors are non-empty and every
present nested block is non-empty (so that the flatten functions, which drop
empty blocks, reproduce the input's key set). -/
def wellFormedParams (p : ParamsTF) : Bool :=
  (p.cookies.behavior ≠ "" : Bool) && optListNonempty p.cookies.items &&
  optStrNonempty p.headers.behavior && optListNonempty p.headers.items &&
  (p.headers.behavior.isSome || p.headers.items.isSome) &&
  (p.queryStrings.behavior ≠ "" : Bool) && optListNonempty p.queryStrings.items

/-- The value is a non-nil `map[string]interface{}` (the element shape the
list-taking expanders keep). -/
def isNonNilMapB : TFValue → Bool
  | .vMap (some _) => true
  | _ => false

/-! # Theorems -/

/-! ## Round-trip lemmas for the cache policy parameters block -/

/-- `TFValue.asString` inverts `TFValue.vStr`. -/
theorem asString_comp_vStr : TFValue.asString ∘ TFValue.vStr = some := rfl

/-- `decay` is the identity on the string values of an injected item set. -/
theorem decayList_map_vStr (l : List String) :
    decayList (l.map TFValue.vStr) = l.map TFValue.vStr := by
  induction l with
  | nil => simp [decayList]
  | cons x xs ih => simp [decayList, decay, ih]

/-- Round trip of one `cookies_config` block through
`expandCachePolicyCookiesConfig` and `flattenCachePolicyCookiesConfig`:
the output map carries the same entries, with the behavior at the enum type
and the items as a string slice; `decay` recovers the input exactly. -/
theorem cookiesBlock_roundtrip (c : CookiesBlockTF) (hb : c.behavior ≠ "")
    (hi : optListNonempty c.items = true) :
    ∃ out, flattenCachePolicyCookiesConfig
        (expandCachePolicyCookiesConfig (some (cookiesBlockToTF c))) = some out ∧
      0 < out.length ∧ decayAList out = cookiesBlockToTF c := by
  obtain ⟨behavior, items⟩ := c
  cases items with
  | none =>
    refine ⟨[("cookie_behavior", TFValue.vEnum "CachePolicyCookieBehavior" behavior)],
      ?_, by simp, ?_⟩
    · simp [cookiesBlockToTF, expandCachePolicyCookiesConfig,
        flattenCachePolicyCookiesConfig, flattenCookieNames, mapGet, List.lookup, goMapLen,
        TFValue.asString, TFValue.asList, hb]
    · simp [decayAList, decay, cookiesBlockToTF]
  | some its =>
    have hits : its ≠ [] := by
      simpa [optListNonempty] using hi
    refine ⟨[("cookie_behavior", TFValue.vEnum "CachePolicyCookieBehavior" behavior),
      ("cookies", TFValue.vList [TFValue.vMap (some [("items", TFValue.vStrSlice its)])])],
      ?_, by simp, ?_⟩
    · simp [cookiesBlockToTF, expandCachePolicyCookiesConfig, expandCookieNames,
        flattenCachePolicyCookiesConfig, flattenCookieNames, mapGet, List.lookup, goMapLen,
        asMapD, TFValue.asString, TFValue.asList, TFValue.asSet, TFValue.asMapT,
        TFValue.isNull, expandStringValueSet, hb, hits, List.length_pos,
        asString_comp_vStr, List.filterMap_some]
    · simp [decayAList, decay, decayList, cookiesBlockToTF, decayList_map_vStr]

/-- Round trip of one `headers_config` block through
`expandCachePolicyHeadersConfig` and `flattenCachePolicyHeadersConfig`. -/
theorem headersBlock_roundtrip (c : HeadersBlockTF)
    (hb : optStrNonempty c.behavior = true) (hi : optListNonempty c.items = true)
    (hne : (c.behavior.isSome || c.items.isSome) = true) :
    ∃ out, flattenCachePolicyHeadersConfig
        (expandCachePolicyHeadersConfig (some (headersBlockToTF c))) = some out ∧
      0 < out.length ∧ decayAList out = headersBlockToTF c := by
  obtain ⟨behavior, items⟩ := c
  cases behavior with
  | none =>
    cases items with
    | none => simp at hne
    | some its =>
      have hits : its ≠ [] := by simpa [optListNonempty] using hi
      refine ⟨[("headers", TFValue.vList
          [TFValue.vMap (some [("items", TFValue.vStrSlice its)])])], ?_, by simp, ?_⟩
      · simp [headersBlockToTF, expandCachePolicyHeadersConfig, expandHeaders,
          flattenCachePolicyHeadersConfig, flattenHeaders, mapGet, List.lookup, goMapLen,
          asMapD, TFValue.asString, TFValue.asList, TFValue.asSet, TFValue.asMapT,
          TFValue.isNull, expandStringValueSet, hits, List.length_pos,
          asString_comp_vStr, List.filterMap_some]
      · simp [decayAList, decay, decayList, headersBlockToTF, decayList_map_vStr]
  | some b =>
    have hbne : b ≠ "" := by simpa [optStrNonempty] using hb
    cases items with
    | none =>
      refine ⟨[("header_behavior", TFValue.vEnum "CachePolicyHeaderBehavior" b)],
        ?_, by simp, ?_⟩
      · simp [headersBlockToTF, expandCachePolicyHeadersConfig,
          flattenCachePolicyHeadersConfig, flattenHeaders, mapGet, List.lookup, goMapLen,
          TFValue.asString, TFValue.asList, hbne]
      · simp [decayAList, decay, headersBlockToTF]
    | some its =>
      have hits : its ≠ [] := by simpa [optListNonempty] using hi
      refine ⟨[("header_behavior", TFValue.vEnum "CachePolicyHeaderBehavior" b),
        ("headers", TFValue.vList [TFValue.vMap (some [("items", TFValue.vStrSlice its)])])],
        ?_, by simp, ?_⟩
      · simp [headersBlockToTF, expandCachePolicyHeadersConfig, expandHeaders,
          flattenCachePolicyHeadersConfig, flattenHeaders, mapGet, List.lookup, goMapLen,
          asMapD, TFValue.asString, TFValue.asList, TFValue.asSet, TFValue.asMapT,
          TFValue.isNull, expandStringValueSet, hbne, hits, List.length_pos,
          asString_comp_vStr, List.filterMap_some]
      · simp [decayAList, decay, decayList, headersBlockToTF, decayList_map_vStr]

/-- Round trip of one `query_strings_config` block through
`expandCachePolicyQueryStringsConfig` and
`flattenCachePolicyQueryStringsConfig`. -/
theorem queryStringsBlock_roundtrip (c : QueryStringsBlockTF) (hb : c.behavior ≠ "")
    (hi : optListNonempty c.items = true) :
    ∃ out, flattenCachePolicyQueryStringsConfig
        (expandCachePolicyQueryStringsConfig (some (queryStringsBlockToTF c))) = some out ∧
      0 < out.length ∧ decayAList out = queryStringsBlockToTF c := by
  obtain ⟨behavior, items⟩ := c
  cases items with
  | none =>
    refine ⟨[("query_string_behavior",
      TFValue.vEnum "CachePolicyQueryStringBehavior" behavior)], ?_, by simp, ?_⟩
    · simp [queryStringsBlockToTF, expandCachePolicyQueryStringsConfig,
        flattenCachePolicyQueryStringsConfig, flattenQueryStringNames, mapGet, List.lookup,
        goMapLen, TFValue.asString, TFValue.asList, hb]
    · simp [decayAList, decay, queryStringsBlockToTF]
  | some its =>
    have hits : its ≠ [] := by simpa [optListNonempty] using hi
    refine ⟨[("query_string_behavior",
        TFValue.vEnum "CachePolicyQueryStringBehavior" behavior),
      ("query_strings",
        TFValue.vList [TFValue.vMap (some [("items", TFValue.vStrSlice its)])])],
      ?_, by simp, ?_⟩
    · simp [queryStringsBlockToTF, expandCachePolicyQueryStringsConfig,
        expandQueryStringNames, flattenCachePolicyQueryStringsConfig,
        flattenQueryStringNames, mapGet, List.lookup, goMapLen, asMapD, TFValue.asString,
        TFValue.asList, TFValue.asSet, TFValue.asMapT, TFValue.isNull,
        expandStringValueSet, hb, hits, List.length_pos,
        asString_comp_vStr, List.filterMap_some]
    · simp [decayAList, decay, decayList, queryStringsBlockToTF, decayList_map_vStr]

/-- C1 (amended): for every well-formed Terraform-side
`parameters_in_cache_key_and_forwarded_to_origin` map `m` (schema-shaped,
with every present nested block non-empty), flattening the result of
expanding `m` returns a map with exactly `m`'s keys and values, but *not* at
the same Terraform-side types: boolean fields come back as `*bool`
(`aws.Bool`), behavior strings come back at the AWS enum string types, and
item sets come back as `[]string` slices.  After erasing exactly these three
wrappers (`decay`), the round trip is the identity: `decay (flatten (expand
m)) = m`. -/
theorem flatten_expand_roundtrip_decayed (p : ParamsTF)
    (h : wellFormedParams p = true) :
    decayGoMap (flattenParametersInCacheKeyAndForwardedToOrigin
      (expandParametersInCacheKeyAndForwardedToOrigin (some (paramsToTFMap p)))) =
    some (paramsToTFMap p) := by
  obtain ⟨c, br, gz, hdr, qs⟩ := p
  simp only [wellFormedParams, Bool.and_eq_true, decide_eq_true_eq] at h
  obtain ⟨⟨⟨⟨⟨⟨h1, h2⟩, h3⟩, h4⟩, h5⟩, h6⟩, h7⟩ := h
  obtain ⟨outC, heC, hlC, hdC⟩ := cookiesBlock_roundtrip c h1 h2
  obtain ⟨outH, heH, hlH, hdH⟩ := headersBlock_roundtrip hdr h3 h4 h5
  obtain ⟨outQ, heQ, hlQ, hdQ⟩ := queryStringsBlock_roundtrip qs h6 h7
  rcases br with _ | b <;> rcases gz with _ | g <;>
    simp [paramsToTFMap, expandParametersInCacheKeyAndForwardedToOrigin,
      flattenParametersInCacheKeyAndForwardedToOrigin, mapGet, List.lookup, asMapD,
      TFValue.asList, TFValue.asBool, TFValue.asMapT, goMapLen, decayGoMap, decayAList,
      decay, decayList, heC, heH, heQ, hlC, hlH, hlQ, hdC, hdH, hdQ]

/-- C1 (counterexample to the claim as stated): a concrete well-formed map
`m₀` with `flatten (expand m₀) ≠ m₀` — the expand/flatten pair changes the
dynamic types of the values (`bool` → `*bool`, `string` → enum string
type). -/
theorem flatten_expand_not_identity :
    wellFormedParams ⟨⟨"none", none⟩, some false, some false, ⟨some "none", none⟩,
        ⟨"none", none⟩⟩ = true ∧
    flattenParametersInCacheKeyAndForwardedToOrigin
      (expandParametersInCacheKeyAndForwardedToOrigin
        (some (paramsToTFMap ⟨⟨"none", none⟩, some false, some false, ⟨some "none", none⟩,
          ⟨"none", none⟩⟩))) ≠
      some (paramsToTFMap ⟨⟨"none", none⟩, some false, some false, ⟨some "none", none⟩,
        ⟨"none", none⟩⟩) := by
  refine ⟨rfl, ?_⟩
  intro hEq
  simp [paramsToTFMap, cookiesBlockToTF, headersBlockToTF, queryStringsBlockToTF,
    expandParametersInCacheKeyAndForwardedToOrigin, expandCachePolicyCookiesConfig,
    expandCachePolicyHeadersConfig, expandCachePolicyQueryStringsConfig,
    flattenParametersInCacheKeyAndForwardedToOrigin, flattenCachePolicyCookiesConfig,
    flattenCachePolicyHeadersConfig, flattenCachePolicyQueryStringsConfig,
    flattenCookieNames, flattenHeaders, flattenQueryStringNames, mapGet, List.lookup,
    asMapD, TFValue.asString, TFValue.asList, TFValue.asBool, TFValue.asMapT, goMapLen]
    at hEq

/-- Witness for `flatten_expand_roundtrip_decayed` at a concrete well-formed
input. -/
theorem flatten_expand_roundtrip_decayed_witness :
    decayGoMap (flattenParametersInCacheKeyAndForwardedToOrigin
      (expandParametersInCacheKeyAndForwardedToOrigin
        (some (paramsToTFMap ⟨⟨"whitelist", some ["session"]⟩, some true, none,
          ⟨none, some ["x-mine"]⟩, ⟨"all", none⟩⟩)))) =
    some (paramsToTFMap ⟨⟨"whitelist", some ["session"]⟩, some true, none,
      ⟨none, some ["x-mine"]⟩, ⟨"all", none⟩⟩) :=
  flatten_expand_roundtrip_decayed _ rfl

/-- C2: every delete handler returns success exactly when the remote delete
call returned nil or an `InvalidInput` error whose message contains
"not found"; every other non-nil error yields an error diagnostic.  Stated
for all six resources' delete handlers. -/
theorem delete_not_found_tolerated (e : Option AWSError)
    (dc : CachePolicyResourceData) (dor : OriginRequestPolicyResourceData)
    (df : FunctionResourceData) (dpk : PublicKeyResourceData)
    (dms : MonitoringSubResourceData) (drh : ResponseHeadersPolicyResourceData) :
    ((resourceCachePolicyDelete dc e).diags = [] ↔
      (e = none ∨ isAErrorMessageContainsInvalidInput e "not found" = true)) ∧
    ((resourceOriginRequestPolicyDelete dor e).diags = [] ↔
      (e = none ∨ isAErrorMessageContainsInvalidInput e "not found" = true)) ∧
    ((resourceFunctionDelete df e).diags = [] ↔
      (e = none ∨ isAErrorMessageContainsInvalidInput e "not found" = true)) ∧
    ((resourcePublicKeyDelete dpk e).diags = [] ↔
      (e = none ∨ isAErrorMessageContainsInvalidInput e "not found" = true)) ∧
    ((resourceMonitoringSubscriptionDelete dms e).diags = [] ↔
      (e = none ∨ isAErrorMessageContainsInvalidInput e "not found" = true)) ∧
    ((resourceResponseHeadersPolicyDelete drh e).diags = [] ↔
      (e = none ∨ isAErrorMessageContainsInvalidInput e "not found" = true)) := by
  cases e with
  | none =>
    simp [resourceCachePolicyDelete, resourceOriginRequestPolicyDelete,
      resourceFunctionDelete, resourcePublicKeyDelete, resourceMonitoringSubscriptionDelete,
      resourceResponseHeadersPolicyDelete, isAErrorMessageContainsInvalidInput]
  | some err =>
    by_cases h : isAErrorMessageContainsInvalidInput (some err) "not found" = true <;>
      simp [resourceCachePolicyDelete, resourceOriginRequestPolicyDelete,
        resourceFunctionDelete, resourcePublicKeyDelete,
        resourceMonitoringSubscriptionDelete, resourceResponseHeadersPolicyDelete, h]

/-- C5: on a successful fetch, the cache policy, origin request policy and
response headers policy read handlers copy every schema field of the API
response into state — for the cache policy: `comment`, `default_ttl`,
`etag`, `max_ttl`, `min_ttl`, `name` and the parameters block — and each
nested-block field is set to nil exactly when the corresponding API
sub-object is nil. -/
theorem read_copies_every_field (dc : CachePolicyResourceData)
    (out : GetCachePolicyOutput) (dor : OriginRequestPolicyResourceData)
    (outor : GetOriginRequestPolicyOutput)
    (drh : ResponseHeadersPolicyResourceData)
    (outrh : GetResponseHeadersPolicyOutput) :
    ((resourceCachePolicyRead dc (.ok out)).diags = [] ∧
     (resourceCachePolicyRead dc (.ok out)).assigns.map Prod.fst =
       ["comment", "default_ttl", "etag", "max_ttl", "min_ttl", "name",
        "parameters_in_cache_key_and_forwarded_to_origin"] ∧
     (resourceCachePolicyRead dc (.ok out)).assigns.lookup "comment" =
       some (optStrV out.CachePolicy.CachePolicyConfig.Comment) ∧
     (resourceCachePolicyRead dc (.ok out)).assigns.lookup "default_ttl" =
       some (optIntV out.CachePolicy.CachePolicyConfig.DefaultTTL) ∧
     (resourceCachePolicyRead dc (.ok out)).assigns.lookup "etag" =
       some (optStrV out.ETag) ∧
     (resourceCachePolicyRead dc (.ok out)).assigns.lookup "max_ttl" =
       some (optIntV out.CachePolicy.CachePolicyConfig.MaxTTL) ∧
     (resourceCachePolicyRead dc (.ok out)).assigns.lookup "min_ttl" =
       some (optIntV out.CachePolicy.CachePolicyConfig.MinTTL) ∧
     (resourceCachePolicyRead dc (.ok out)).assigns.lookup "name" =
       some (optStrV out.CachePolicy.CachePolicyConfig.Name) ∧
     ((resourceCachePolicyRead dc (.ok out)).assigns.lookup
         "parameters_in_cache_key_and_forwarded_to_origin" = some TFValue.vNull ↔
       out.CachePolicy.CachePolicyConfig.ParametersInCacheKeyAndForwardedToOrigin = none)) ∧
    ((resourceOriginRequestPolicyRead dor (.ok outor)).diags = [] ∧
     (resourceOriginRequestPolicyRead dor (.ok outor)).assigns.map Prod.fst =
       ["comment", "cookies_config", "etag", "headers_config", "name",
        "query_strings_config"] ∧
     (resourceOriginRequestPolicyRead dor (.ok outor)).assigns.lookup "comment" =
       some (optStrV outor.OriginRequestPolicy.OriginRequestPolicyConfig.Comment) ∧
     (resourceOriginRequestPolicyRead dor (.ok outor)).assigns.lookup "etag" =
       some (optStrV outor.ETag) ∧
     (resourceOriginRequestPolicyRead dor (.ok outor)).assigns.lookup "name" =
       some (optStrV outor.OriginRequestPolicy.OriginRequestPolicyConfig.Name) ∧
     ((resourceOriginRequestPolicyRead dor (.ok outor)).assigns.lookup "cookies_config" =
         some TFValue.vNull ↔
       outor.OriginRequestPolicy.OriginRequestPolicyConfig.CookiesConfig = none) ∧
     ((resourceOriginRequestPolicyRead dor (.ok outor)).assigns.lookup "headers_config" =
         some TFValue.vNull ↔
       outor.OriginRequestPolicy.OriginRequestPolicyConfig.HeadersConfig = none) ∧
     ((resourceOriginRequestPolicyRead dor (.ok outor)).assigns.lookup
         "query_strings_config" = some TFValue.vNull ↔
       outor.OriginRequestPolicy.OriginRequestPolicyConfig.QueryStringsConfig = none)) ∧
    ((resourceResponseHeadersPolicyRead drh (.ok outrh)).diags = [] ∧
     (resourceResponseHeadersPolicyRead drh (.ok outrh)).assigns.map Prod.fst =
       ["comment", "cors_config", "custom_headers_config", "etag", "name",
        "remove_headers_config", "security_headers_config",
        "server_timing_headers_config"] ∧
     (resourceResponseHeadersPolicyRead drh (.ok outrh)).assigns.lookup "comment" =
       some (optStrV
         outrh.ResponseHeadersPolicy.ResponseHeadersPolicyConfig.Comment) ∧
     (resourceResponseHeadersPolicyRead drh (.ok outrh)).assigns.lookup "etag" =
       some (optStrV outrh.ETag) ∧
     (resourceResponseHeadersPolicyRead drh (.ok outrh)).assigns.lookup "name" =
       some (optStrV outrh.ResponseHeadersPolicy.ResponseHeadersPolicyConfig.Name) ∧
     ((resourceResponseHeadersPolicyRead drh (.ok outrh)).assigns.lookup "cors_config" =
         some TFValue.vNull ↔
       outrh.ResponseHeadersPolicy.ResponseHeadersPolicyConfig.CorsConfig = none) ∧
     ((resourceResponseHeadersPolicyRead drh (.ok outrh)).assigns.lookup
         "custom_headers_config" = some TFValue.vNull ↔
       outrh.ResponseHeadersPolicy.ResponseHeadersPolicyConfig.CustomHeadersConfig
         = none) ∧
     ((resourceResponseHeadersPolicyRead drh (.ok outrh)).assigns.lookup
         "remove_headers_config" = some TFValue.vNull ↔
       outrh.ResponseHeadersPolicy.ResponseHeadersPolicyConfig.RemoveHeadersConfig
         = none) ∧
     ((resourceResponseHeadersPolicyRead drh (.ok outrh)).assigns.lookup
         "security_headers_config" = some TFValue.vNull ↔
       outrh.ResponseHeadersPolicy.ResponseHeadersPolicyConfig.SecurityHeadersConfig
         = none) ∧
     ((resourceResponseHeadersPolicyRead drh (.ok outrh)).assigns.lookup
         "server_timing_headers_config" = some TFValue.vNull ↔
       outrh.ResponseHeadersPolicy.ResponseHeadersPolicyConfig.ServerTimingHeadersConfig
         = none)) := by
  refine ⟨?_, ?_, ?_⟩
  · cases h : out.CachePolicy.CachePolicyConfig.ParametersInCacheKeyAndForwardedToOrigin <;>
      simp [resourceCachePolicyRead, List.lookup, h]
  · cases h1 : outor.OriginRequestPolicy.OriginRequestPolicyConfig.CookiesConfig <;>
      cases h2 : outor.OriginRequestPolicy.OriginRequestPolicyConfig.HeadersConfig <;>
      cases h3 : outor.OriginRequestPolicy.OriginRequestPolicyConfig.QueryStringsConfig <;>
      simp [resourceOriginRequestPolicyRead, List.lookup, h1, h2, h3]
  · cases h1 : outrh.ResponseHeadersPolicy.ResponseHeadersPolicyConfig.CorsConfig <;>
      cases h2 : outrh.ResponseHeadersPolicy.ResponseHeadersPolicyConfig.CustomHeadersConfig <;>
      cases h3 : outrh.ResponseHeadersPolicy.ResponseHeadersPolicyConfig.RemoveHeadersConfig <;>
      cases h4 : outrh.ResponseHeadersPolicy.ResponseHeadersPolicyConfig.SecurityHeadersConfig <;>
      cases h5 : outrh.ResponseHeadersPolicy.ResponseHeadersPolicyConfig.ServerTimingHeadersConfig <;>
      simp [resourceResponseHeadersPolicyRead, List.lookup, h1, h2, h3, h4, h5]

/-- C10: in the cache policy, public key and function read handlers, a
not-found fetch on a resource that is not newly created clears the stored
identifier to `""` and returns success with no other state writes; on a
newly created resource a not-found fetch yields an error diagnostic (and no
identifier write). -/
theorem read_not_found_clears_state (dc : CachePolicyResourceData)
    (dpk : PublicKeyResourceData) (npf : String → Option String)
    (df : FunctionResourceData) (getRes : Except AWSError GetFunctionOutput)
    (liveRes : Except FindError DescribeFunctionOutput) :
    (dc.isNewResource = false →
      (resourceCachePolicyRead dc (.error .notFound)).storedId = some "" ∧
      (resourceCachePolicyRead dc (.error .notFound)).diags = [] ∧
      (resourceCachePolicyRead dc (.error .notFound)).assigns = []) ∧
    (dc.isNewResource = true →
      (resourceCachePolicyRead dc (.error .notFound)).storedId = none ∧
      (resourceCachePolicyRead dc (.error .notFound)).diags ≠ []) ∧
    (dpk.isNewResource = false →
      (resourcePublicKeyRead npf dpk (.error .notFound)).storedId = some "" ∧
      (resourcePublicKeyRead npf dpk (.error .notFound)).diags = [] ∧
      (resourcePublicKeyRead npf dpk (.error .notFound)).assigns = []) ∧
    (dpk.isNewResource = true →
      (resourcePublicKeyRead npf dpk (.error .notFound)).storedId = none ∧
      (resourcePublicKeyRead npf dpk (.error .notFound)).diags ≠ []) ∧
    (df.isNewResource = false →
      (resourceFunctionRead df (.error .notFound) getRes liveRes).storedId = some "" ∧
      (resourceFunctionRead df (.error .notFound) getRes liveRes).diags = [] ∧
      (resourceFunctionRead df (.error .notFound) getRes liveRes).assigns = []) ∧
    (df.isNewResource = true →
      (resourceFunctionRead df (.error .notFound) getRes liveRes).storedId = none ∧
      (resourceFunctionRead df (.error .notFound) getRes liveRes).diags ≠ []) := by
  refine ⟨fun h => ?_, fun h => ?_, fun h => ?_, fun h => ?_, fun h => ?_, fun h => ?_⟩ <;>
    simp [resourceCachePolicyRead, resourcePublicKeyRead, resourceFunctionRead, h]

/-- Witness for `read_not_found_clears_state` at concrete states (one not
newly created, one newly created). -/
theorem read_not_found_clears_state_witness :
    (resourceCachePolicyRead { id := "abc", isNewResource := false }
      (.error .notFound)).storedId = some "" ∧
    (resourceCachePolicyRead { id := "abc", isNewResource := true }
      (.error .notFound)).diags ≠ [] :=
  ⟨((read_not_found_clears_state { id := "abc", isNewResource := false } {}
      (fun _ => none) {} (.ok {}) (.error .notFound)).1 rfl).1,
   ((read_not_found_clears_state { id := "abc", isNewResource := true } {}
      (fun _ => none) {} (.ok {}) (.error .notFound)).2.1 rfl).2⟩

/-- C3 (counterexample to the claim as stated): the monitoring subscription
create handler does *not* store an identifier taken from the create call's
output — it discards the output (`_, err := conn.CreateMonitoringSubscription`)
and stores the configured `distribution_id`.  Two runs receiving the
identical create output store different identifiers. -/
theorem monitoring_id_not_from_output :
    (resourceMonitoringSubscriptionCreate { distribution_id := "EDFDVBD6EXAMPLE" }
      (.ok {})).storedId = some "EDFDVBD6EXAMPLE" ∧
    (resourceMonitoringSubscriptionCreate { distribution_id := "E2OTHERID" }
      (.ok {})).storedId = some "E2OTHERID" :=
  ⟨rfl, rfl⟩

/-- C3 (amended): each create handler stores an identifier with `d.SetId`
before invoking the read handler, and on a failed create call stores nothing
and returns an error diagnostic.  The identifier is taken from the create
call's output for the cache policy (`output.CachePolicy.Id`) and the
function (`output.FunctionSummary.Name`); the monitoring subscription create
handler discards the output and stores the configured `distribution_id`. -/
theorem create_stores_identifier
    (dcp : CachePolicyResourceData) (out : CreateCachePolicyOutput) (e : AWSError)
    (df : FunctionResourceData) (fout : CreateFunctionOutput)
    (pres : Except AWSError Unit)
    (dms : MonitoringSubResourceData) (mout : CreateMonitoringSubscriptionOutput) :
    ((resourceCachePolicyCreate dcp (.ok out)).storedId =
       some (out.CachePolicy.Id.getD "") ∧
     (resourceCachePolicyCreate dcp (.ok out)).events =
       [.remoteCall "CreateCachePolicy", .setId (out.CachePolicy.Id.getD ""),
        .invokeRead] ∧
     (resourceCachePolicyCreate dcp (.ok out)).diags = []) ∧
    ((resourceCachePolicyCreate dcp (.error e)).storedId = none ∧
     (resourceCachePolicyCreate dcp (.error e)).diags ≠ [] ∧
     (resourceCachePolicyCreate dcp (.error e)).events =
       [.remoteCall "CreateCachePolicy"]) ∧
    ((resourceFunctionCreate df (.ok fout) pres).storedId =
       some (fout.FunctionSummary.Name.getD "") ∧
     ∃ rest, (resourceFunctionCreate df (.ok fout) pres).events =
       .remoteCall "CreateFunction" ::
         .setId (fout.FunctionSummary.Name.getD "") :: rest) ∧
    ((resourceFunctionCreate df (.error e) pres).storedId = none ∧
     (resourceFunctionCreate df (.error e) pres).diags ≠ [] ∧
     (resourceFunctionCreate df (.error e) pres).events =
       [.remoteCall "CreateFunction"]) ∧
    ((resourceMonitoringSubscriptionCreate dms (.ok mout)).storedId =
       some dms.distribution_id ∧
     (resourceMonitoringSubscriptionCreate dms (.ok mout)).events =
       [.remoteCall "CreateMonitoringSubscription", .setId dms.distribution_id,
        .invokeRead] ∧
     (resourceMonitoringSubscriptionCreate dms (.ok mout)).diags = []) ∧
    ((resourceMonitoringSubscriptionCreate dms (.error e)).storedId = none ∧
     (resourceMonitoringSubscriptionCreate dms (.error e)).diags ≠ []) := by
  refine ⟨?_, ?_, ?_, ?_, ?_, ?_⟩
  · simp [resourceCachePolicyCreate]
  · simp [resourceCachePolicyCreate]
  · rcases pres with e' | u <;> by_cases hp : df.publish <;>
      simp [resourceFunctionCreate, hp]
  · simp [resourceFunctionCreate]
  · simp [resourceMonitoringSubscriptionCreate]
  · simp [resourceMonitoringSubscriptionCreate]

/-- C4 (counterexample to the claim as stated): an invocation of the function
update handler with none of `code`, `comment`, `runtime` changed and
`publish = false` makes no remote call at all — in particular the
`UpdateFunction` replace endpoint is not called exactly once. -/
theorem function_update_can_skip_update_call :
    remoteCalls ((resourceFunctionUpdate
      { hasChangeCodeCommentRuntime := false, publish := false }
      (.ok {}) (.ok ())).events) = [] :=
  rfl

/-- C4 (amended): the cache policy update handler rebuilds the complete
configuration from the current state — the same `CachePolicyConfig` the
create handler builds — and calls `UpdateCachePolicy` exactly once per
invocation.  The function update handler calls `UpdateFunction` exactly once
when one of `code`/`comment`/`runtime` changed and zero times otherwise; the
monitoring subscription resource registers its create handler as its update
handler, so an update calls the `CreateMonitoringSubscription` (replace)
endpoint exactly once. -/
theorem update_rebuilds_full_config_and_calls_once
    (dcp : CachePolicyResourceData) (ures : Except AWSError Unit)
    (cres : Except AWSError CreateCachePolicyOutput)
    (df : FunctionResourceData) (fres : Except AWSError UpdateFunctionOutput)
    (pres : Except AWSError Unit)
    (dms : MonitoringSubResourceData)
    (mres : Except AWSError CreateMonitoringSubscriptionOutput) :
    ((resourceCachePolicyUpdate dcp ures).sentConfig =
       (resourceCachePolicyCreate dcp cres).sentConfig ∧
     remoteCalls (resourceCachePolicyUpdate dcp ures).events = ["UpdateCachePolicy"]) ∧
    (df.hasChangeCodeCommentRuntime = true →
      (remoteCalls (resourceFunctionUpdate df fres pres).events).count "UpdateFunction"
        = 1) ∧
    (df.hasChangeCodeCommentRuntime = false →
      (remoteCalls (resourceFunctionUpdate df fres pres).events).count "UpdateFunction"
        = 0) ∧
    (resourceMonitoringSubscriptionUpdateRegistered dms mres =
       resourceMonitoringSubscriptionCreate dms mres ∧
     remoteCalls (resourceMonitoringSubscriptionUpdateRegistered dms mres).events =
       ["CreateMonitoringSubscription"]) := by
  refine ⟨⟨?_, ?_⟩, fun h => ?_, fun h => ?_, rfl, ?_⟩
  · rcases ures with e | u <;> rcases cres with e' | o <;>
      simp [resourceCachePolicyUpdate, resourceCachePolicyCreate]
  · rcases ures with e | u <;> simp [resourceCachePolicyUpdate, remoteCalls]
  · rcases fres with e | o <;> rcases pres with e' | u <;> by_cases hp : df.publish <;>
      simp [resourceFunctionUpdate, remoteCalls, h, hp]
  · rcases fres with e | o <;> rcases pres with e' | u <;> by_cases hp : df.publish <;>
      simp [resourceFunctionUpdate, remoteCalls, h, hp]
  · rcases mres with e | o <;>
      simp [resourceMonitoringSubscriptionUpdateRegistered,
        resourceMonitoringSubscriptionCreate, remoteCalls]

/-- Witness for `update_rebuilds_full_config_and_calls_once` at concrete
inputs discharging both change-set hypotheses. -/
theorem update_rebuilds_full_config_and_calls_once_witness :
    (remoteCalls ((resourceFunctionUpdate
        { hasChangeCodeCommentRuntime := true } (.ok {}) (.ok ())).events)).count
      "UpdateFunction" = 1 ∧
    (remoteCalls ((resourceFunctionUpdate
        { hasChangeCodeCommentRuntime := false } (.ok {}) (.ok ())).events)).count
      "UpdateFunction" = 0 :=
  ⟨(update_rebuilds_full_config_and_calls_once {} (.ok ()) (.ok {})
      { hasChangeCodeCommentRuntime := true } (.ok {}) (.ok ()) {} (.ok {})).2.1 rfl,
   (update_rebuilds_full_config_and_calls_once {} (.ok ()) (.ok {})
      { hasChangeCodeCommentRuntime := false } (.ok {}) (.ok ()) {} (.ok {})).2.2.1 rfl⟩

/-- C6: the expand functions are pure functions of their argument.  The
embedding is pure by construction (translating the source required no state,
no client handle and no mutation of the input), and the functions are
extensional: their output depends only on the *lookups* of the input map —
two maps with the same lookups (e.g. the same entries in a different
order, as Go's unordered maps present them) expand identically — and the
list-taking expander is determined by its input list. -/
theorem expand_functions_deterministic :
    (∀ m m' : List (String × TFValue),
      (∀ k, mapGet (some m) k = mapGet (some m') k) →
      expandCookieNames (some m) = expandCookieNames (some m')) ∧
    (∀ m m' : List (String × TFValue),
      (∀ k, mapGet (some m) k = mapGet (some m') k) →
      expandResponseHeadersPolicyCustomHeader (some m) =
        expandResponseHeadersPolicyCustomHeader (some m')) ∧
    (∀ l l' : List TFValue, l = l' →
      expandResponseHeadersPolicyCustomHeaders l =
        expandResponseHeadersPolicyCustomHeaders l') := by
  refine ⟨fun m m' h => ?_, fun m m' h => ?_, fun l l' h => by rw [h]⟩
  · simp only [expandCookieNames]
    rw [h "items"]
  · simp only [expandResponseHeadersPolicyCustomHeader]
    rw [h "header", h "override", h "value"]

/-- Witness for `expand_functions_deterministic`: two maps holding the same
entries in different orders (equal lookups) expand to the same API object. -/
theorem expand_functions_deterministic_witness :
    expandCookieNames (some [("items", TFValue.vSet [TFValue.vStr "a"]),
      ("zzz", TFValue.vInt 1)]) =
    expandCookieNames (some [("zzz", TFValue.vInt 1),
      ("items", TFValue.vSet [TFValue.vStr "a"])]) :=
  expand_functions_deterministic.1 _ _ (by
    intro k
    by_cases h1 : k = "items"
    · subst h1; simp [mapGet, List.lookup]
    · by_cases h2 : k = "zzz"
      · subst h2; simp [mapGet, List.lookup]
      · have e1 : (k == "items") = false := beq_eq_false_iff_ne.mpr h1
        have e2 : (k == "zzz") = false := beq_eq_false_iff_ne.mpr h2
        simp [mapGet, List.lookup, e1, e2])

/-- C7: in the function create, function read and cache policy update
handlers, a remote call that fails (outside the tolerated not-found cases)
ends the invocation: the event trace stops at the failing call — no further
remote calls, no read invocation — and an error diagnostic is returned. -/
theorem remote_error_stops_invocation
    (df : FunctionResourceData) (e : AWSError) (fout : CreateFunctionOutput)
    (fe : FindError) (getRes : Except AWSError GetFunctionOutput)
    (liveRes : Except FindError DescribeFunctionOutput)
    (devOut : DescribeFunctionOutput) (getOut : GetFunctionOutput)
    (dcp : CachePolicyResourceData) (pres : Except AWSError Unit) :
    ((resourceFunctionCreate df (.error e) pres).events =
       [.remoteCall "CreateFunction"] ∧
     (resourceFunctionCreate df (.error e) pres).diags ≠ []) ∧
    (df.publish = true →
      (resourceFunctionCreate df (.ok fout) (.error e)).events =
        [.remoteCall "CreateFunction", .setId (fout.FunctionSummary.Name.getD ""),
         .remoteCall "PublishFunction"] ∧
      (resourceFunctionCreate df (.ok fout) (.error e)).diags ≠ []) ∧
    (¬ (df.isNewResource = false ∧ fe = FindError.notFound) →
      (resourceFunctionRead df (.error fe) getRes liveRes).events =
        [.remoteCall "DescribeFunction"] ∧
      (resourceFunctionRead df (.error fe) getRes liveRes).diags ≠ []) ∧
    ((resourceFunctionRead df (.ok devOut) (.error e) liveRes).events =
       [.remoteCall "DescribeFunction", .remoteCall "GetFunction"] ∧
     (resourceFunctionRead df (.ok devOut) (.error e) liveRes).diags ≠ []) ∧
    ((resourceFunctionRead df (.ok devOut) (.ok getOut) (.error (.err e))).events =
       [.remoteCall "DescribeFunction", .remoteCall "GetFunction",
        .remoteCall "DescribeFunction"] ∧
     (resourceFunctionRead df (.ok devOut) (.ok getOut) (.error (.err e))).diags ≠ []) ∧
    ((resourceCachePolicyUpdate dcp (.error e)).events =
       [.remoteCall "UpdateCachePolicy"] ∧
     (resourceCachePolicyUpdate dcp (.error e)).diags ≠ []) := by
  refine ⟨?_, fun hp => ?_, fun h => ?_, ?_, ?_, ?_⟩
  · simp [resourceFunctionCreate]
  · simp [resourceFunctionCreate, hp]
  · cases fe with
    | notFound =>
      have hnew : df.isNewResource = true := by
        cases hb : df.isNewResource
        · exact absurd ⟨hb, rfl⟩ h
        · rfl
      simp [resourceFunctionRead, hnew]
    | err e' => cases hb : df.isNewResource <;> simp [resourceFunctionRead, hb]
  · simp [resourceFunctionRead]
  · simp [resourceFunctionRead]
  · simp [resourceCachePolicyUpdate]

/-- Witness for `remote_error_stops_invocation` at concrete inputs
discharging the publish and non-tolerated-not-found hypotheses. -/
theorem remote_error_stops_invocation_witness :
    (resourceFunctionCreate { name := "f", publish := true } (.ok {})
      (.error (.other "boom"))).events =
      [.remoteCall "CreateFunction", .setId "", .remoteCall "PublishFunction"] ∧
    (resourceFunctionRead { id := "f", isNewResource := true } (.error .notFound)
      (.ok {}) (.error .notFound)).diags ≠ [] :=
  ⟨((remote_error_stops_invocation { name := "f", publish := true } (.other "boom") {}
      .notFound (.ok {}) (.error .notFound) {} {} {} (.ok ())).2.1 rfl).1,
   ((remote_error_stops_invocation { id := "f", isNewResource := true } (.other "boom") {}
      .notFound (.ok {}) (.error .notFound) {} {} {} (.ok ())).2.2.1 (by simp)).2⟩

/-- The remove-headers loop yields `[]` exactly when the accumulator is `[]`
and no element of the list is a non-nil map (every non-nil map element
contributes exactly one item). -/
theorem removeHeaders_foldl_eq_nil_iff (l : List TFValue)
    (acc : List ResponseHeadersPolicyRemoveHeader) :
    (l.foldl removeHeadersLoopBody acc = [] ↔
      acc = [] ∧ ∀ x ∈ l, isNonNilMapB x = false) := by
  induction l generalizing acc with
  | nil => simp
  | cons x xs ih =>
    rw [List.foldl_cons, ih]
    cases x <;>
      simp [removeHeadersLoopBody, TFValue.asMapT, isNonNilMapB,
        expandResponseHeadersPolicyRemoveHeader]
    case vMap m =>
      cases m <;>
        simp [expandResponseHeadersPolicyRemoveHeader, and_assoc]

/-- C8 (counterexample to the claim as stated): the list-taking expander
`expandResponseHeadersPolicyRemoveHeaders` returns nil on the non-nil,
non-empty list `[42]` (its single element is not a
`map[string]interface{}`, so the loop keeps nothing). -/
theorem removeHeaders_nonempty_yields_nil :
    expandResponseHeadersPolicyRemoveHeaders [TFValue.vInt 42] = [] ∧
    ([TFValue.vInt 42] : List TFValue) ≠ [] :=
  ⟨rfl, by simp⟩

/-- C8 (amended): the map-taking expanders return nil exactly when the input
map is nil — any non-nil map, including the empty one, yields a non-nil API
object (on the empty map, one with no field set).  The list-taking expander
`expandResponseHeadersPolicyRemoveHeaders` returns nil exactly when the
input list contains no non-nil map element; in particular a nil or empty
list yields nil, and any schema-conformant non-empty list (whose elements
are non-nil maps) yields a non-nil slice. -/
theorem expand_nil_iff_input_nil (g : GoMap) (l : List TFValue) :
    (expandCachePolicyCookiesConfig g = none ↔ g = none) ∧
    (expandMonitoringSubscription g = none ↔ g = none) ∧
    expandCachePolicyCookiesConfig (some []) =
      some { CookieBehavior := "", Cookies := none } ∧
    expandMonitoringSubscription (some []) =
      some { RealtimeMetricsSubscriptionConfig := none } ∧
    (expandResponseHeadersPolicyRemoveHeaders l = [] ↔
      ∀ x ∈ l, isNonNilMapB x = false) := by
  refine ⟨?_, ?_, rfl, rfl, ?_⟩
  · cases g <;> simp [expandCachePolicyCookiesConfig]
  · cases g <;> simp [expandMonitoringSubscription]
  · cases l with
    | nil => simp [expandResponseHeadersPolicyRemoveHeaders]
    | cons x xs =>
      rw [expandResponseHeadersPolicyRemoveHeaders]
      simp only [List.length_cons, Nat.succ_ne_zero, if_false]
      exact (removeHeaders_foldl_eq_nil_iff (x :: xs) []).trans (by simp)

/-- `int32(n)` is `n` itself below `2^31`. -/
theorem int32ofNat_small (n : Nat) (h : n < 2147483648) : int32ofNat n = (n : Int) := by
  have hm : n % 4294967296 = n := Nat.mod_eq_of_lt (by omega)
  simp [int32ofNat, hm, h]

/-- C9: every Items/Quantity-carrying API object built by the cited expand
functions satisfies `Quantity = int32(length Items)` whenever `Quantity` is
set (hence `Quantity` equals the number of items whenever that number fits
in an `int32`), and when the input set is absent or empty both `Items` and
`Quantity` are left unset; when the input set is non-empty, `Quantity` is
set together with the expanded items. -/
theorem expand_quantity_eq_items_length
    (m1 m2 m3 : List (String × TFValue)) (o1 : CookieNames)
    (o2 : ResponseHeadersPolicyAccessControlAllowHeaders)
    (o3 : ResponseHeadersPolicyCustomHeadersConfig) :
    (expandCookieNames (some m1) = some o1 →
      ((o1.Quantity = none ∧ o1.Items = []) ∨
        o1.Quantity = some (int32ofNat o1.Items.length)) ∧
      (o1.Items.length < 2147483648 →
        (o1.Quantity = none ∧ o1.Items = []) ∨
          o1.Quantity = some (o1.Items.length : Int)) ∧
      (((mapGet (some m1) "items").asSet = none ∨
          (mapGet (some m1) "items").asSet = some []) →
        o1.Items = [] ∧ o1.Quantity = none) ∧
      (∀ v, (mapGet (some m1) "items").asSet = some v → 0 < v.length →
        o1.Items = expandStringValueSet v ∧
        o1.Quantity = some (int32ofNat (expandStringValueSet v).length))) ∧
    (expandResponseHeadersPolicyAccessControlAllowHeaders (some m2) = some o2 →
      ((o2.Quantity = none ∧ o2.Items = []) ∨
        o2.Quantity = some (int32ofNat o2.Items.length)) ∧
      (o2.Items.length < 2147483648 →
        (o2.Quantity = none ∧ o2.Items = []) ∨
          o2.Quantity = some (o2.Items.length : Int)) ∧
      (((mapGet (some m2) "items").asSet = none ∨
          (mapGet (some m2) "items").asSet = some []) →
        o2.Items = [] ∧ o2.Quantity = none)) ∧
    (expandResponseHeadersPolicyCustomHeadersConfig (some m3) = some o3 →
      ((o3.Quantity = none ∧ o3.Items = []) ∨
        o3.Quantity = some (int32ofNat o3.Items.length)) ∧
      (o3.Items.length < 2147483648 →
        (o3.Quantity = none ∧ o3.Items = []) ∨
          o3.Quantity = some (o3.Items.length : Int)) ∧
      (((mapGet (some m3) "items").asSet = none ∨
          (mapGet (some m3) "items").asSet = some []) →
        o3.Items = [] ∧ o3.Quantity = none)) := by
  refine ⟨fun h1 => ?_, fun h2 => ?_, fun h3 => ?_⟩
  · cases hset : (mapGet (some m1) "items").asSet with
    | none =>
      simp [expandCookieNames, hset] at h1
      subst h1
      simp
    | some v =>
      by_cases hv : 0 < v.length
      · simp [expandCookieNames, hset, hv] at h1
        subst h1
        refine ⟨Or.inr rfl, fun hlt => Or.inr ?_, fun habs => ?_, fun w hw hwpos => ?_⟩
        · simp [int32ofNat_small _ hlt]
        · rcases habs with h | h
          · exact absurd h (by simp)
          · injection h with h
            subst h
            simp at hv
        · injection hw with hw
          subst hw
          exact ⟨rfl, rfl⟩
      · simp [expandCookieNames, hset, hv] at h1
        subst h1
        refine ⟨Or.inl ⟨rfl, rfl⟩, fun _ => Or.inl ⟨rfl, rfl⟩, fun _ => ⟨rfl, rfl⟩,
          fun w hw hwpos => ?_⟩
        injection hw with hw
        subst hw
        exact absurd hwpos hv
  · cases hset : (mapGet (some m2) "items").asSet with
    | none =>
      simp [expandResponseHeadersPolicyAccessControlAllowHeaders, hset] at h2
      subst h2
      simp
    | some v =>
      by_cases hv : 0 < v.length
      · simp [expandResponseHeadersPolicyAccessControlAllowHeaders, hset, hv] at h2
        subst h2
        refine ⟨Or.inr rfl, fun hlt => Or.inr ?_, fun habs => ?_⟩
        · simp [int32ofNat_small _ hlt]
        · rcases habs with h | h
          · exact absurd h (by simp)
          · injection h with h
            subst h
            simp at hv
      · simp [expandResponseHeadersPolicyAccessControlAllowHeaders, hset, hv] at h2
        subst h2
        exact ⟨Or.inl ⟨rfl, rfl⟩, fun _ => Or.inl ⟨rfl, rfl⟩, fun _ => ⟨rfl, rfl⟩⟩
  · cases hset : (mapGet (some m3) "items").asSet with
    | none =>
      simp [expandResponseHeadersPolicyCustomHeadersConfig, hset] at h3
      subst h3
      simp
    | some v =>
      by_cases hv : 0 < v.length
      · simp [expandResponseHeadersPolicyCustomHeadersConfig, hset, hv] at h3
        subst h3
        refine ⟨Or.inr rfl, fun hlt => Or.inr ?_, fun habs => ?_⟩
        · simp [int32ofNat_small _ hlt]
        · rcases habs with h | h
          · exact absurd h (by simp)
          · injection h with h
            subst h
            simp at hv
      · simp [expandResponseHeadersPolicyCustomHeadersConfig, hset, hv] at h3
        subst h3
        exact ⟨Or.inl ⟨rfl, rfl⟩, fun _ => Or.inl ⟨rfl, rfl⟩, fun _ => ⟨rfl, rfl⟩⟩

/-- Witness for `expand_quantity_eq_items_length` at a concrete two-element
cookie set. -/
theorem expand_quantity_eq_items_length_witness :
    (({ Items := ["a", "b"], Quantity := some (int32ofNat 2) } : CookieNames).Quantity
        = none ∧
      ({ Items := ["a", "b"], Quantity := some (int32ofNat 2) } : CookieNames).Items
        = []) ∨
    ({ Items := ["a", "b"], Quantity := some (int32ofNat 2) } : CookieNames).Quantity
      = some (2 : Int) :=
  ((expand_quantity_eq_items_length
      [("items", TFValue.vSet [TFValue.vStr "a", TFValue.vStr "b"])] [] []
      { Items := ["a", "b"], Quantity := some (int32ofNat 2) } {} {}).1 rfl).2.1
    (by simp)

end CloudFront
